import Mathlib

/-!
# Verification of the DRA-OFK financial report generators

Shallow embedding of the three spreadsheet-to-XML converters of the
repository (`src/AIF.py`, `src/AIFM.py`, `src/OFKReport.py`) and proofs
about the claims of the natural-language specification.

Spreadsheet parsing (pandas loading, NaN normalisation, the per-sheet
column dropping of the OFK variant) is out of scope per the spec; the
embedding starts from the normalised tabular view the Python code works
on: a list of rows whose cells are Python values (string, int, or other),
with empty cells normalised to the empty string.

Element trees (`xml.etree.ElementTree`) are mutable in the source:
subelements are appended to a parent that is held in a Python variable,
and a variable may keep referring to an element created in an earlier
loop iteration.  We model this faithfully with an append-only arena of
nodes carrying a parent pointer; Python element variables become arena
indices, and a stale variable is simply an old index.
-/

set_option maxHeartbeats 1000000

namespace OFK

/-- A Python cell value as it appears in the dataframe after
`df.replace(np.nan, '')`: a string, an int, a pandas timestamp
(carrying `str(v)` and `str(v.date())`), or some other object
(e.g. a float, carrying `str(v)` and its truthiness). -/
inductive Value where
  | vstr (s : String)
  | vint (n : Int)
  | vdate (full : String) (dateOnly : String)
  | vother (rep : String) (truthy : Bool)
  deriving DecidableEq, Repr

namespace Value

/-- Python `str(v)`. -/
def pyStr : Value → String
  | vstr s => s
  | vint n => toString n
  | vdate full _ => full
  | vother rep _ => rep

/-- Python truthiness `bool(v)`. -/
def pyTruthy : Value → Bool
  | vstr s => s ≠ ""
  | vint n => n ≠ 0
  | vdate _ _ => true
  | vother _ t => t

/-- Python `v == s` for a string literal `s` (cross-type equality is `False`). -/
def eqStr (v : Value) (s : String) : Bool :=
  match v with
  | vstr t => t == s
  | _ => false

/-- Python `v == n` for an int literal `n`. -/
def eqInt (v : Value) (n : Int) : Bool :=
  match v with
  | vint m => m == n
  | _ => false

/-- Python `type(v) == int`. -/
def isInt : Value → Bool
  | vint _ => true
  | _ => false

/-- Python `type(v) == str`. -/
def isStr : Value → Bool
  | vstr _ => true
  | _ => false

/-- The int payload (0 when not an int; only used under `isInt`). -/
def intVal : Value → Int
  | vint n => n
  | _ => 0

end Value

open Value

/-- The error taxonomy: the user-defined exception classes of the three
scripts plus the built-in Python exceptions the code can raise. -/
inductive ErrKind where
  | emptyValue          -- EmptyValueError
  | domainValue         -- DomainValueError
  | lengthValue         -- LengthValueRequiredError
  | noFilesFound        -- NoFilesFoundError
  | unsignedInteger     -- UnassinedIntegerError
  | conditional         -- ConditionalError (AIF)
  | notImplemented      -- NotImplementedError (AIF)
  | integerValue        -- IntegerValueError (OFK)
  | stringValue         -- StringValueError (OFK)
  | assertionFail       -- AssertionError (OFK)
  | pyIndexError        -- IndexError
  | pyKeyError          -- KeyError
  | pyAttributeError    -- AttributeError (e.g. `.strip()` on a non-string)
  | pyNameError         -- NameError (use of a never-assigned local variable)
  deriving DecidableEq, Repr

structure Err where
  kind : ErrKind
  msg : String
  deriving DecidableEq, Repr

deriving instance DecidableEq for Except

abbrev Exc (α : Type) := Except Err α

def throwErr {α : Type} (k : ErrKind) (m : String) : Exc α :=
  Except.error ⟨k, m⟩

/-- Python `s.upper()` (executable model over the char list). -/
def pyUpper (s : String) : String := String.mk (s.data.map Char.toUpper)

/-- Python `s.lower()`. -/
def pyLower (s : String) : String := String.mk (s.data.map Char.toLower)

/-- Python `s.strip()` (whitespace from both ends). -/
def pyStrip (s : String) : String :=
  String.mk (((s.data.dropWhile Char.isWhitespace).reverse.dropWhile
    Char.isWhitespace).reverse)

/-- `str(v).strip()`, the ubiquitous text-emission pattern. -/
def strStrip (v : Value) : String := pyStrip v.pyStr

/-- `len(v)`: defined for strings, `TypeError`-like failure otherwise
(modelled as an AttributeError-class Python error since both are caught
by the same generic handler). -/
def pyLen (v : Value) : Exc Nat :=
  match v with
  | .vstr s => Except.ok s.length
  | _ => throwErr .pyAttributeError "object has no len"

/-- `v.strip()` without a `str(...)` wrapper: AttributeError on non-strings. -/
def pyStripV (v : Value) : Exc String :=
  match v with
  | .vstr s => Except.ok (pyStrip s)
  | _ => throwErr .pyAttributeError "object has no attribute strip"

/-- `v.upper().strip()` without a `str(...)` wrapper. -/
def pyUpperStripV (v : Value) : Exc String :=
  match v with
  | .vstr s => Except.ok (pyStrip (pyUpper s))
  | _ => throwErr .pyAttributeError "object has no attribute upper"

/-- `str(v.date()).strip()`: only timestamps have `.date()`. -/
def pyDateStrip (v : Value) : Exc String :=
  match v with
  | .vdate _ d => Except.ok (pyStrip d)
  | _ => throwErr .pyAttributeError "object has no attribute date"

/-- Python list indexing `l[i]` for a nonnegative index: IndexError out of range. -/
def pyGet {α : Type} (l : List α) (i : Nat) : Exc α :=
  match l.get? i with
  | some x => Except.ok x
  | none => throwErr .pyIndexError "list index out of range"

/-- Python dict semantics for an association list: `d[k] = v` replaces in
place when the key exists and appends otherwise (insertion order kept;
Python dicts never hold duplicate keys). -/
def dictSet {α : Type} : List (String × α) → String → α → List (String × α)
  | [], k, v => [(k, v)]
  | p :: rest, k, v =>
      if p.1 == k then (k, v) :: rest else p :: dictSet rest k v

/-- `{i[0]: i[1] for i in ps}`. -/
def dictOf {α : Type} (ps : List (String × α)) : List (String × α) :=
  ps.foldl (fun d p => dictSet d p.1 p.2) []

/-- Python dict lookup `d[k]`: KeyError when absent. -/
def dget {α : Type} (d : List (String × α)) (k : String) : Exc α :=
  match d.find? (fun p => p.1 == k) with
  | some p => Except.ok p.2
  | none => throwErr .pyKeyError k

/-- Truthiness of a dict (`if d:`): nonempty. -/
def dictTruthy {α : Type} (d : List (String × α)) : Bool := !d.isEmpty

end OFK

namespace OFK

/-! ## Element-tree arena

`xml.etree.ElementTree` elements are mutable and the scripts hold them in
Python variables.  A node is an arena entry with a tag, the index of its
parent, and an optional text; `ET.SubElement` appends an entry.  Index 0
is the root element (its attributes are kept separately on the document,
since only the root ever receives attributes in these scripts). -/

structure ANode where
  tag : String
  parent : Nat
  text : Option String
  deriving DecidableEq, Repr

abbrev Arena := List ANode

/-- `ET.SubElement(parent, tag)`: append a node, return the new index. -/
def subElem (a : Arena) (parent : Nat) (tag : String) : Arena × Nat :=
  (a ++ [⟨tag, parent, none⟩], a.length)

/-- `ET.SubElement(parent, tag)` directly followed by `node.text = s`. -/
def addLeaf (a : Arena) (parent : Nat) (tag : String) (s : String) : Arena :=
  a ++ [⟨tag, parent, some s⟩]

/-- `node.text = s` on an existing node. -/
def setTextAt (a : Arena) (i : Nat) (s : String) : Arena :=
  a.enum.map (fun p => if p.1 == i then { p.2 with text := some s } else p.2)

/-- Recovered recursive element tree (children in creation order). -/
inductive XTree where
  | node (tag : String) (text : Option String) (children : List XTree)
  deriving Repr

def childIndices (a : Arena) (i : Nat) : List Nat :=
  (a.enum.filter (fun p => p.2.parent == i && p.1 != i)).map Prod.fst

def nodeAt (a : Arena) (i : Nat) : ANode :=
  (a.get? i).getD ⟨"", 0, none⟩

def treeOfAux (a : Arena) : Nat → Nat → XTree
  | 0, i => .node (nodeAt a i).tag (nodeAt a i).text []
  | fuel + 1, i =>
      .node (nodeAt a i).tag (nodeAt a i).text
        ((childIndices a i).map (treeOfAux a fuel))

/-- The element tree rooted at index 0. -/
def treeOf (a : Arena) : XTree := treeOfAux a a.length 0

/-- A produced document: the root attribute dict plus the element arena. -/
structure XDoc where
  attrs : List (String × String)
  arena : Arena
  deriving DecidableEq, Repr

/-- Does the arena contain a leaf with this tag and text? -/
def hasLeaf (a : Arena) (tag : String) (s : String) : Bool :=
  a.any (fun n => n.tag == tag && n.text == some s)

/-- Does the arena contain any node with this tag? -/
def hasTag (a : Arena) (tag : String) : Bool :=
  a.any (fun n => n.tag == tag)

/-! ## The AIFM converter (`src/AIFM.py`, `convert_to_xml`)

Dataframe columns: `['xmlTags', 'Id', 'XMLDescription', 'Input_1', 'Input_2']`
(with `xmlTags` already stripped of angle brackets). -/

structure RowM where
  tag : String
  id : Value
  desc : Value
  in1 : Value
  in2 : Value
  deriving DecidableEq, Repr

/-- `df[df.Id.isin(keys)]` (order of the dataframe preserved). -/
def rowsIdInM (df : List RowM) (keys : List Value) : List RowM :=
  df.filter (fun r => keys.any (fun k => r.id == k))

/-- `[str(i) for i in range(lo, hi)]` as `Value` keys. -/
def strIds (lo hi : Nat) : List Value :=
  ((List.range (hi - lo)).map (fun i => Value.vstr (toString (lo + i))))

/-- Rows 1..3 projected to `[['xmlTags', 'Input_1']]`. -/
def headerFileKeysOfM (df : List RowM) : List (String × Value) :=
  (rowsIdInM df (strIds 1 4)).map (fun r => (r.tag, r.in1))

/-- Section rows projected to `[['xmlTags', 'Input_1']]` and turned into a dict. -/
def sectionDictM (df : List RowM) (lo hi : Nat) : List (String × Value) :=
  dictOf ((rowsIdInM df (strIds lo hi)).map (fun r => (r.tag, r.in1)))

/-- AIFM.py lines 156-165: rows 4..9, every field required, the two
reporting-period fields emitted date-only. -/
def aifmSec4to9 (a : Arena) (p : Nat) : List (String × Value) → Exc Arena
  | [] => Except.ok a
  | (k, v) :: rest => do
      if !(v.eqStr "") then
        if k != "ReportingPeriodStartDate" && k != "ReportingPeriodEndDate" then
          aifmSec4to9 (addLeaf a p k (strStrip v)) p rest
        else do
          let d ← pyDateStrip v
          aifmSec4to9 (addLeaf a p k d) p rest
      else throwErr .emptyValue (k ++ " field cannot be empty!")

/-- AIFM.py lines 167-215: rows 10..15 (reporting-obligation change codes,
last-reporting flag, question number and assumption description). -/
def aifmSec10to15 (a : Arena) (rec : Nat) (d : List (String × Value)) :
    Exc Arena := do
  let freq ← dget d "AIFMReportingObligationChangeFrequencyCode"
  let a := if !(freq.eqStr "") then
      addLeaf a rec "AIFMReportingObligationChangeFrequencyCode" (strStrip freq)
    else a
  let contents ← dget d "AIFMReportingObligationChangeContentsCode"
  let a := if !(contents.eqStr "") then
      addLeaf a rec "AIFMReportingObligationChangeContentsCode" (strStrip contents)
    else a
  let a ← if freq.pyTruthy || !(contents.eqStr "") then do
      let q ← dget d "AIFMReportingObligationChangeQuarter"
      if !(q.eqStr "") then
        Except.ok (addLeaf a rec "AIFMReportingObligationChangeQuarter" (strStrip q))
      else
        throwErr .emptyValue "AIFMReportingObligationChangeQuarter field cannot be empty!"
    else Except.ok a
  let lrf ← dget d "LastReportingFlag"
  let a ← if !(lrf.eqStr "") then
      Except.ok (addLeaf a rec "LastReportingFlag" (pyStrip (pyLower lrf.pyStr)))
    else throwErr .emptyValue "LastReportingFlag field cannot be empty!"
  let qn ← dget d "QuestionNumber"
  if qn.pyTruthy then do
    let ad ← dget d "AssumptionDescription"
    if ad.eqStr "" then do
      let n ← pyLen ad
      if n > 300 then
        throwErr .lengthValue
          "AssumptionDescription string required in this field should not be greater 300!"
      else
        Except.ok (addLeaf (addLeaf a rec "QuestionNumber" (strStrip qn))
          rec "AssumptionDescription" (strStrip ad))
    else Except.ok a
  else Except.ok a

/-- AIFM.py lines 217-226: rows 16..21, all required. -/
def aifmSec16to21 (a : Arena) (p : Nat) : List (String × Value) → Exc Arena
  | [] => Except.ok a
  | (k, v) :: rest => do
      if !(v.eqStr "") then
        aifmSec16to21 (addLeaf a p k (strStrip v)) p rest
      else throwErr .emptyValue (k ++ " field cannot be empty!")

/-- AIFM.py lines 228-260: rows 22..25, the AIFM identifier block. -/
def aifmIdentifierSec (a : Arena) (cd : Nat) (d : List (String × Value)) :
    Exc Arena := do
  if dictTruthy d then do
    let (a, idn) := subElem a cd "AIFMIdentifier"
    let lei ← dget d "AIFMIdentifierLEI"
    let a := if !(lei.eqStr "") then
        addLeaf a idn "AIFMIdentifierLEI" (strStrip lei)
      else a
    let bic ← dget d "AIFMIdentifierBIC"
    let a := if !(bic.eqStr "") then
        addLeaf a idn "AIFMIdentifierBIC" (strStrip bic)
      else a
    let rms ← dget d "ReportingMemberState"
    if rms.pyTruthy && !(rms.eqStr "") then do
      let nc ← dget d "AIFMNationalCode"
      Except.ok (addLeaf (addLeaf a idn "ReportingMemberState" (strStrip rms))
        idn "AIFMNationalCode" (strStrip nc))
    else Except.ok a
  else Except.ok a

/-- The five principal-market rows: `df[df.Id.isin(['1st',..,'5th'])]`
projected to `[['XMLDescription', 'Input_1', 'Input_2']]`. -/
def aifmMarketRows (df : List RowM) : List (Value × Value × Value) :=
  (rowsIdInM df
      [.vstr "1st", .vstr "2nd", .vstr "3rd", .vstr "4th", .vstr "5th"]).map
    (fun r => (r.desc, r.in1, r.in2))

/-- One iteration of the principal-market loop (AIFM.py lines 271-311).
`counter` is the running index into `ranks = [1, 2, 3, 4, 5]`. -/
def aifmMarketStep (a : Arena) (pms : Nat) (row : Value × Value × Value)
    (counter : Nat) : Exc (Arena × Nat) := do
  let (desc, v1, v2) := row
  if ["MIC", "XXX", "OTC", "NOT"].any (fun s => desc.eqStr s) then do
    let (a, mkt) := subElem a pms "AIFMFivePrincipalMarket"
    let rank ← pyGet [1, 2, 3, 4, 5] counter
    let a := addLeaf a mkt "Ranking" (pyStrip (toString (rank : Nat)))
    let (a, mi) := subElem a mkt "MarketIdentification"
    let a := addLeaf a mi "MarketCodeType" (strStrip desc)
    if desc.eqStr "MIC" && v1.eqStr "" then
      throwErr .emptyValue "MarketCode is required for MIC market codes!"
    else do
      let a ← if desc.eqStr "MIC" then do
          let n ← pyLen v1
          if n > 4 then
            throwErr .lengthValue "Maximum length of 4 is required for MarketCode!"
          else Except.ok (addLeaf a mi "MarketCode" (strStrip v1))
        else Except.ok a
      if !(desc.eqStr "NOT") then
        if !v2.isInt || v2.intVal < 0 then
          throwErr .unsignedInteger
            "AggregatedValueAmount must be not contain decimals & should not be a negative number. Check value in row 32-36 column D"
        else
          Except.ok (addLeaf a mkt "AggregatedValueAmount" (strStrip v2), counter + 1)
      else Except.ok (a, counter + 1)
  else
    throwErr .domainValue
      "Required principal market values in for AIFM trades are MIC, XXX, OTC & NOT. Check values in rows 32-36, column C of template"

def aifmMarketsLoop (a : Arena) (pms : Nat) :
    List (Value × Value × Value) → Nat → Exc (Arena × Nat)
  | [], counter => Except.ok (a, counter)
  | row :: rest, counter => do
      let (a, counter) ← aifmMarketStep a pms row counter
      aifmMarketsLoop a pms rest counter

/-- The five principal-instrument rows: `df[df.Id.isin([1..5])]` projected
to `[['Id', 'XMLDescription', 'Input_1']]`. -/
def aifmInstrumentRows (df : List RowM) : List (Value × Value × Value) :=
  (rowsIdInM df [.vint 1, .vint 2, .vint 3, .vint 4, .vint 5]).map
    (fun r => (r.id, r.desc, r.in1))

/-- One iteration of the principal-instrument loop (AIFM.py lines 321-346). -/
def aifmInstrumentStep (a : Arena) (pis : Nat) (row : Value × Value × Value) :
    Exc Arena := do
  let (rid, desc, v1) := row
  if desc.eqStr "" then
    throwErr .emptyValue
      "SubAssetType field cannot be empty! Check values in rows 40-44, column C of template"
  else if v1.eqStr "" then
    throwErr .emptyValue
      "AggregatedValueAmount field cannot be empty! Check values in rows 40-44, column C of template"
  else do
    let (a, instr) := subElem a pis "AIFMPrincipalInstrument"
    let a := addLeaf a instr "Ranking" (strStrip rid)
    let a := addLeaf a instr "SubAssetType" (strStrip desc)
    if !(desc.eqStr "NTA_NTA_NOTA") then
      if !v1.isInt || v1.intVal < 0 then
        throwErr .unsignedInteger
          "AggregatedValueAmount must be UnassigneIinteger (not contain decimals & not negative). Check value in row 40-44 column D"
      else Except.ok (addLeaf a instr "AggregatedValueAmount" (strStrip v1))
    else Except.ok a

def aifmInstrumentsLoop (a : Arena) (pis : Nat) :
    List (Value × Value × Value) → Exc Arena
  | [] => Except.ok a
  | row :: rest => do
      let a ← aifmInstrumentStep a pis row
      aifmInstrumentsLoop a pis rest

/-- AIFM.py lines 353-402: the AUM values (rows 33..38) and the base
currency description with its FX-rate rules. -/
def aifmValuesSec (a : Arena) (cd : Nat) (d : List (String × Value)) :
    Exc Arena := do
  let aum ← dget d "AUMAmountInEuro"
  let a ← if !(aum.eqStr "") then
      if !aum.isInt || aum.intVal < 0 then
        throwErr .unsignedInteger
          "AUMAmountInEuro must be UnassigneIinteger (not contain decimals and not negative). Check value in row 46 column D"
      else Except.ok (addLeaf a cd "AUMAmountInEuro" (strStrip aum))
    else
      throwErr .emptyValue
        "AUMAmountInEuro field cannot be empty! Check value in row 46 column D"
  let (a, bcd) := subElem a cd "AIFMBaseCurrencyDescription"
  let aumB ← dget d "AUMAmountInBaseCurrency"
  if aumB.pyTruthy then do
    let bc ← dget d "BaseCurrency"
    if !(bc.eqStr "") then do
      if !aumB.isInt || aumB.intVal < 0 then
        throwErr .unsignedInteger
          "AUMAmountInBaseCurrency must be UnassigneIinteger (not contain decimals & not negative). Check value in row 47 column D"
      else do
        let a := addLeaf a bcd "BaseCurrency" (pyStrip (pyUpper bc.pyStr))
        let a := addLeaf a bcd "AUMAmountInBaseCurrency" (strStrip aumB)
        let a ← if pyStrip (pyUpper bc.pyStr) != "EUR" then do
            let rt ← dget d "FXEURReferenceRateType"
            if rt.pyTruthy then do
              let rate ← dget d "FXEURRate"
              if !(rate.eqStr "") then
                Except.ok (addLeaf (addLeaf a bcd "FXEURReferenceRateType" (strStrip rt))
                  bcd "FXEURRate" (strStrip rate))
              else
                throwErr .emptyValue
                  "FXEURReferenceRateType or FXEURRate fields cannot be empty! Check value in rows 49-50 column D"
            else
              throwErr .emptyValue
                "FXEURReferenceRateType or FXEURRate fields cannot be empty! Check value in rows 49-50 column D"
          else Except.ok a
        -- line 398: `if str(...BaseCurrency).upper().strip() or
        --   ...FXEUROtherReferenceRateDescription == "OTH":`
        let cond ← if pyStrip (pyUpper bc.pyStr) != "" then Except.ok true
          else do
            let od ← dget d "FXEUROtherReferenceRateDescription"
            Except.ok (od.eqStr "OTH")
        if cond then do
          let od ← dget d "FXEUROtherReferenceRateDescription"
          Except.ok (addLeaf a bcd "FXEUROtherReferenceRateDescription" (strStrip od))
        else Except.ok a
    else Except.ok a
  else Except.ok a

/-- The body of `convert_to_xml` for one file: everything below the root
element.  Index 0 of the resulting arena is the `AIFMReportingInfo` root. -/
def aifmBody (df : List RowM) : Exc Arena := do
  let a : Arena := [⟨"AIFMReportingInfo", 0, none⟩]
  let (a, rec) := subElem a 0 "AIFMRecordInfo"
  let a ← aifmSec4to9 a rec (sectionDictM df 4 10)
  let a ← aifmSec10to15 a rec (sectionDictM df 10 16)
  let a ← aifmSec16to21 a rec (sectionDictM df 16 22)
  let (a, cd) := subElem a rec "AIFMCompleteDescription"
  let a ← aifmIdentifierSec a cd (sectionDictM df 22 26)
  let (a, pms) := subElem a cd "AIFMPrincipalMarkets"
  let (a, _) ← aifmMarketsLoop a pms (aifmMarketRows df) 0
  let (a, pis) := subElem a cd "AIFMPrincipalInstruments"
  let a ← aifmInstrumentsLoop a pis (aifmInstrumentRows df)
  aifmValuesSec a cd (sectionDictM df 33 39)

/-- Root attributes of the AIFM report (AIFM.py lines 143-148); `ts` is
`datetime.today().strftime('%Y-%m-%dT%H:%M:%S')`. -/
def aifmRootAttrs (ts : String) (h0 h1 : String × Value) :
    List (String × String) :=
  let d := dictSet [] "xsi:noNamespaceSchemaLocation" "AIFMD_DATMAN_V1.2.xsd"
  let d := dictSet d "CreationDateAndTime" ts
  let d := dictSet d h0.1 (strStrip h0.2)
  let d := dictSet d h1.1 (strStrip h1.2)
  dictSet d "xmlns:xsi" "http://www.w3.org/2001/XMLSchema-instance"

/-- `convert_to_xml` for one input file (AIFM.py lines 126-406). -/
def aifmBuildFile (ts : String) (df : List RowM) : Exc XDoc := do
  let hks := headerFileKeysOfM df
  let h0 ← pyGet hks 0
  let h1 ← pyGet hks 1
  if h0.2.pyTruthy && h1.2.eqStr "" then
    throwErr .emptyValue
      (" " ++ h0.1 ++ " and " ++ h1.1 ++ " fields cannot be empty! ")
  else do
    let a ← aifmBody df
    Except.ok ⟨aifmRootAttrs ts h0 h1, a⟩

/-- Outcome of one batch run: the documents written to disk in order, and
the single error caught by the `except` handler (if any). -/
structure RunResult where
  written : List (String × XDoc)
  logged : Option Err
  deriving DecidableEq, Repr

def noFilesErr : Err :=
  ⟨.noFilesFound,
    "No excel files selected. Specify path to excel document and try again!"⟩

def aifmRunGo (ts : String) : List (String × List RowM) →
    List (String × XDoc) → RunResult
  | [], acc => ⟨acc.reverse, none⟩
  | (name, df) :: rest, acc =>
      match aifmBuildFile ts df with
      | .ok doc => aifmRunGo ts rest ((name, doc) :: acc)
      | .error e => ⟨acc.reverse, some e⟩

/-- `convert_to_xml(files)`: the whole `for file in files` loop sits inside
one `try` (AIFM.py lines 120-410), so the first error aborts the batch;
each successfully built document is written inside the loop. -/
def aifmRun (ts : String) (files : List (String × List RowM)) : RunResult :=
  if files.length == 0 then ⟨[], some noFilesErr⟩
  else aifmRunGo ts files []

end OFK

namespace OFK

/-! ## The AIF converter (`src/AIF.py`, `aif_xml`)

Dataframe columns: `['xmlTags', 'Id', 'XMLDescription', 'Input_1', ...,
'Input_12']` (with `xmlTags` already stripped of angle brackets). -/

structure RowA where
  tag : String
  id : Value
  desc : Value
  i1 : Value
  i2 : Value
  i3 : Value
  i4 : Value
  i5 : Value
  i6 : Value
  i7 : Value
  i8 : Value
  i9 : Value
  i10 : Value
  i11 : Value
  i12 : Value
  deriving DecidableEq, Repr

def rowsIdInA (df : List RowA) (keys : List Value) : List RowA :=
  df.filter (fun r => keys.any (fun k => r.id == k))

def rowsTagInA (df : List RowA) (keys : List String) : List RowA :=
  df.filter (fun r => keys.any (fun k => r.tag == k))

def headerFileKeysOfA (df : List RowA) : List (String × Value) :=
  (rowsIdInA df (strIds 1 4)).map (fun r => (r.tag, r.i1))

def sectionDictA (df : List RowA) (lo hi : Nat) : List (String × Value) :=
  dictOf ((rowsIdInA df (strIds lo hi)).map (fun r => (r.tag, r.i1)))

/-- AIF.py lines 146-155: rows 4..9, identical loop to the AIFM variant. -/
def aifSec4to9 : Arena → Nat → List (String × Value) → Exc Arena :=
  aifmSec4to9

/-- AIF.py lines 163-205: rows 10..15. -/
def aifSec10to15 (a : Arena) (rec : Nat) (d : List (String × Value)) :
    Exc Arena := do
  let freq ← dget d "AIFReportingObligationChangeFrequencyCode"
  let a := if !(freq.eqStr "") then
      addLeaf a rec "AIFReportingObligationChangeFrequencyCode" (strStrip freq)
    else a
  let contents ← dget d "AIFReportingObligationChangeContentsCode"
  let a := if !(contents.eqStr "") then
      addLeaf a rec "AIFReportingObligationChangeContentsCode" (strStrip contents)
    else a
  let a ← if freq.pyTruthy || !(contents.eqStr "") then do
      let q ← dget d "AIFReportingObligationChangeQuarter"
      if !(q.eqStr "") then
        Except.ok (addLeaf a rec "AIFReportingObligationChangeQuarter" (strStrip q))
      else
        throwErr .emptyValue "AIFReportingObligationChangeQuarter field cannot be empty!"
    else Except.ok a
  let lrf ← dget d "LastReportingFlag"
  let a ← if !(lrf.eqStr "") then
      Except.ok (addLeaf a rec "LastReportingFlag" (pyStrip (pyLower lrf.pyStr)))
    else throwErr .emptyValue "LastReportingFlag field cannot be empty!"
  let qn ← dget d "QuestionNumber"
  if qn.pyTruthy then do
    let ad ← dget d "AssumptionDescription"
    if ad.eqStr "" then do
      let n ← pyLen ad
      if n > 300 then
        throwErr .lengthValue
          "AssumptionDescription string required in this field should not be greater 300!"
      else
        Except.ok (addLeaf (addLeaf a rec "QuestionNumber" (strStrip qn))
          rec "AssumptionDescription" (strStrip ad))
    else Except.ok a
  else Except.ok a

/-- AIF.py lines 212-217: rows 16..23, all required. -/
def aifSec16to23 : Arena → Nat → List (String × Value) → Exc Arena :=
  aifmSec16to21

/-- AIF.py line 222: `{i[0]: i[1].strip() for i in AIFIdentifiers}` —
values are stripped with a bare `.strip()`, so non-string cells raise. -/
def aifIdentifiersDict (df : List RowA) : Exc (List (String × String)) :=
  go ((rowsIdInA df (strIds 24 33)).map (fun r => (r.tag, r.i1))) []
where go : List (String × Value) → List (String × String) →
    Exc (List (String × String))
  | [], d => Except.ok d
  | (k, v) :: rest, d => do
      let s ← pyStripV v
      go rest (dictSet d k s)

/-- AIF.py lines 234-244: the counter-based identifier emission loop.
`AIFIdentification` is created when the first dict item is nonempty; when
a later item is nonempty but the first was empty, the Python variable
`AIFIdentification` was never assigned and a NameError escapes. -/
def aifIdentLoop (a : Arena) (pinfo : Nat) (idn : Option Nat) (counter : Nat) :
    List (String × String) → Exc Arena
  | [] => Except.ok a
  | (k, v) :: rest =>
      if v != "" && counter == 0 then
        let (a, i) := subElem a pinfo "AIFIdentification"
        aifIdentLoop (addLeaf a i k (pyStrip v)) pinfo (some i) (counter + 1) rest
      else if v != "" && counter != 0 then
        match idn with
        | some i => aifIdentLoop (addLeaf a i k (pyStrip v)) pinfo (some i) (counter + 1) rest
        | none => throwErr .pyNameError "AIFIdentification is not defined"
      else aifIdentLoop a pinfo idn (counter + 1) rest

/-- AIF.py lines 229-244: the AIF identifier section (rows 24..32). -/
def aifIdentifierSec (a : Arena) (pinfo : Nat) (d : List (String × String)) :
    Exc Arena := do
  if dictTruthy d then do
    let rms ← dget d "ReportingMemberState"
    let nc ← dget d "AIFNationalCode"
    if (rms != "" && nc == "") || (nc != "" && rms == "") then
      throwErr .conditional
        " Value required for ReportingMemberState if AIFNationalCode is filled and vice versa"
    else aifIdentLoop a pinfo none 0 d
  else Except.ok a

/-- AIF.py lines 259-266: one `ShareClassIdentifier` per dict item. -/
def aifShareClassLoop (a : Arena) (sci : Nat) :
    List (String × Value) → Arena
  | [] => a
  | (k, v) :: rest =>
      let (a, idr) := subElem a sci "ShareClassIdentifier"
      let a := if !(v.eqStr "") then addLeaf a idr k (strStrip v) else a
      aifShareClassLoop a sci rest

/-- AIF.py lines 246-266: the share-class section (rows 33..40). -/
def aifShareClassSec (a : Arena) (pinfo : Nat) (d : List (String × Value)) :
    Exc Arena := do
  let (a, scf) := subElem a pinfo "ShareClassFlag"
  let flag ← dget d "ShareClassFlag"
  if pyStrip (pyLower flag.pyStr) == "false" then
    Except.ok (setTextAt a scf (strStrip flag))
  else do
    let name ← dget d "ShareClassName"
    if name.eqStr "" && pyStrip (pyLower flag.pyStr) == "true" then
      throwErr .emptyValue "Share class name field is required"
    else
      let (a, sci) := subElem a pinfo "ShareClassIdentification"
      Except.ok (aifShareClassLoop a sci d)

/-- AIF.py lines 268-307: the master/feeder section (rows 41..44);
returns the index of the `AIFDescription` element. -/
def aifMasterFeederSec (a : Arena) (pinfo : Nat) (d : List (String × Value)) :
    Exc (Arena × Nat) := do
  let (a, ad) := subElem a pinfo "AIFDescription"
  let mfs ← dget d "AIFMasterFeederStatus"
  let a := addLeaf a ad "AIFMasterFeederStatus" (pyStrip (pyUpper mfs.pyStr))
  let mfsU ← pyUpperStripV mfs
  if mfsU == "FEEDER" then do
    let name ← dget d "AIFName"
    if name.eqStr "" then
      throwErr .emptyValue "Value required for AIFName field"
    else do
      let (a, msi) := subElem a ad "MasterAIFsIdentification"
      let (a, mi) := subElem a msi "MasterAIFIdentification"
      let a := addLeaf a mi "AIFName" (strStrip name)
      let rms ← dget d "ReportingMemberState"
      let nc ← dget d "AIFNationalCode"
      if !(rms.eqStr "") && nc.eqStr "" then
        throwErr .emptyValue "Value is required for AIFNationalCode field"
      else do
        let (a, nca) := subElem a mi "AIFIdentifierNCA"
        let a := if !(rms.eqStr "") then
            addLeaf a nca "ReportingMemberState" (strStrip rms)
          else a
        let a := if !(nc.eqStr "") then
            addLeaf a nca "AIFNationalCode" (strStrip nc)
          else a
        Except.ok (a, ad)
  else Except.ok (a, ad)

/-- AIF.py lines 314-329: the prime-broker loop.  Despite its name it
iterates over the rows-24..32 identifier dict, with the same counter
pattern as `aifIdentLoop`. -/
def aifPrimeBrokerLoop (a : Arena) (ad : Nat) (pbi : Option Nat)
    (counter : Nat) : List (String × String) → Exc Arena
  | [] => Except.ok a
  | (k, v) :: rest =>
      if v != "" && counter == 0 then
        let (a, pbs) := subElem a ad "PrimeBrokers"
        let (a, i) := subElem a pbs "PrimeBrokerIdentification"
        aifPrimeBrokerLoop (addLeaf a i k (pyStrip v)) ad (some i) (counter + 1) rest
      else if v != "" && counter != 0 then
        match pbi with
        | some i => aifPrimeBrokerLoop (addLeaf a i k (pyStrip v)) ad (some i) (counter + 1) rest
        | none => throwErr .pyNameError "PrimeBrokerIdentification is not defined"
      else aifPrimeBrokerLoop a ad pbi (counter + 1) rest

/-- AIF.py lines 309-329: rows 45..47 gate the prime-broker loop. -/
def aifPrimeBrokerSec (a : Arena) (ad : Nat) (primeBrokers : List (String × Value))
    (identifiers : List (String × String)) : Exc Arena :=
  if dictTruthy primeBrokers then aifPrimeBrokerLoop a ad none 0 identifiers
  else Except.ok a

/-- AIF.py lines 331-379: rows 48..53, the base-currency description and
net asset value. -/
def aifValuesSec (a : Arena) (ad : Nat) (d : List (String × Value)) :
    Exc Arena := do
  let bc ← dget d "BaseCurrency"
  let chk ← if bc.pyTruthy then do
      let nav ← dget d "AIFNetAssetValue"
      if nav.pyTruthy then do
        let aum ← dget d "AUMAmountInBaseCurrency"
        Except.ok (aum.eqStr "")
      else Except.ok false
    else Except.ok false
  if chk then
    throwErr .emptyValue
      " AUMAmountInBaseCurrency, BaseCurrency & AIFNetAssetValue cannot be empty"
  else do
    let (a, bcd) := subElem a ad "AIFBaseCurrencyDescription"
    let a := addLeaf a bcd "BaseCurrency" (pyStrip (pyUpper bc.pyStr))
    let aum ← dget d "AUMAmountInBaseCurrency"
    let a := addLeaf a bcd "AUMAmountInBaseCurrency" (strStrip aum)
    let bcU ← pyUpperStripV bc
    let a ← if bcU != "EUR" then do
        let rate ← dget d "FXEURRate"
        let okBranch ← if rate.pyTruthy then do
            let rt ← dget d "FXEURReferenceRateType"
            Except.ok (!(rt.eqStr ""))
          else Except.ok false
        if okBranch then do
          let rt ← dget d "FXEURReferenceRateType"
          let a := addLeaf a bcd "FXEURReferenceRateType" (pyStrip (pyUpper rt.pyStr))
          Except.ok (addLeaf a bcd "FXEURRate" (strStrip rate))
        else
          throwErr .emptyValue " FXEURRate & FXEURReferenceRateType cannot be empty"
      else Except.ok a
    let rt ← dget d "FXEURReferenceRateType"
    let rtU ← pyUpperStripV rt
    let a ← if rtU == "OTH" then do
        let od ← dget d "FXEUROtherReferenceRateDescription"
        if !(od.eqStr "") then
          Except.ok (addLeaf a bcd "FXEUROtherReferenceRateDescription" (strStrip od))
        else throwErr .emptyValue "FXEUROthReferenceRateDescription cannot be empty"
      else Except.ok a
    let nav ← dget d "AIFNetAssetValue"
    Except.ok (addLeaf a ad "AIFNetAssetValue" (strStrip nav))

/-- AIF.py lines 386-394: rows 54..57, jurisdiction values. -/
def aifJurisdictionSec (a : Arena) (ad : Nat) (d : List (String × Value)) :
    Exc Arena := do
  let pt ← dget d "PredominantAIFType"
  if pt.eqStr "" then
    throwErr .emptyValue "PredominantAIFType field cannot be empty"
  else
    Except.ok (if dictTruthy d then
      d.foldl (fun a p =>
        if !(p.2.eqStr "") then addLeaf a ad p.1 (strStrip p.2) else a) a
    else a)

/-- AIF.py lines 401-425: rows 58..60, the investment-strategy section,
keyed on the predominant AIF type. -/
def aifInvestmentSec (a : Arena) (ad : Nat) (jur d : List (String × Value)) :
    Exc Arena := do
  let pt ← dget jur "PredominantAIFType"
  if pt.eqStr "HFND" then
    let (a, hs) := subElem a ad "HedgeFundInvestmentStrategies"
    let (a, h) := subElem a hs "HedgeFundInvestmentStrategy"
    Except.ok (d.foldl (fun a p => addLeaf a h p.1 (strStrip p.2)) a)
  else if pt.eqStr "PEQF" then do
    let (a, ps) := subElem a ad "PrivateEquityFundInvestmentStrategies"
    let (a, pe) := subElem a ps "PrivateEquityFundInvestmentStrategy"
    go a pe d
  else do
    let v ← dget d "PrivateEquityFundStrategyType"
    throwErr .notImplemented
      ("Script has not been implemented for this " ++ v.pyStr ++ " yet")
where go (a : Arena) (pe : Nat) : List (String × Value) → Exc Arena
  | [] => Except.ok a
  | (k, v) :: rest =>
      if !(v.eqStr "") then go (addLeaf a pe k (strStrip v)) pe rest
      else throwErr .emptyValue (k ++ " field cannot be empty")

/-- AIF.py lines 427-436: rows 62..63, optional transaction numbers. -/
def aifHFTSec (a : Arena) (ad : Nat) (rows : List (String × Value)) : Arena :=
  rows.foldl (fun a p =>
    if !(p.2.eqStr "") then addLeaf a ad p.1 (strStrip p.2) else a) a

/-- Python `row_list == ""`: a list never equals a string. -/
def rowListEqEmpty (_ : RowA) : Bool := false

/-- AIF.py lines 444-534: one iteration of the main-instruments loop
(rows tagged `m1`..`m5`).  `allRows` is the full filtered list, needed
because line 449 mistakenly indexes `principalExValues[1]` (the second
row of the whole list) instead of the current row's sub-asset type. -/
def aifMainInstrStep (a : Arena) (mit : Nat) (allRows : List RowA)
    (row : RowA) : Exc Arena := do
  let (a, mt) := subElem a mit "MainInstrumentTraded"
  let a := addLeaf a mt "Ranking" (strStrip row.id)
  let second ← pyGet allRows 1
  if rowListEqEmpty second then
    throwErr .emptyValue "SubAssetType field cannot empty"
  else do
    let a := addLeaf a mt "SubAssetType" (strStrip row.desc)
    let a ← if !(row.desc.eqStr "NTA_NTA_NOTA") then do
        if row.i1.eqStr "" then
          throwErr .emptyValue "InstrumentCodeType field cannot empty"
        else
          let a := addLeaf a mt "InstrumentCodeType" (strStrip row.i1)
          if row.i2.eqStr "" then
            throwErr .emptyValue "InstrumentName field cannot empty"
          else Except.ok (addLeaf a mt "InstrumentName" (strStrip row.i2))
      else Except.ok a
    let a ← if row.i1.eqStr "ISIN" then do
        if row.i3.eqStr "" then
          throwErr .emptyValue "ISINInstrumentIdentification field cannot empty"
        else Except.ok (addLeaf a mt "ISINInstrumentIdentification" (strStrip row.i3))
      else Except.ok a
    let a ← if row.i1.eqStr "AII" then do
        let (a, aii) := subElem a mt "AIIInstrumentIdentification"
        if row.i4.eqStr "" then
          throwErr .emptyValue "AIIExchangeCode field cannot empty"
        else
          let a := addLeaf a aii "AIIExchangeCode" (strStrip row.i4)
          if row.i5.eqStr "" then
            throwErr .emptyValue "AIIDerivativeType field cannot empty"
          else
            let a := addLeaf a aii "AIIDerivativeType" (strStrip row.i5)
            if row.i6.eqStr "" then
              throwErr .emptyValue "AIIPutCallIdentifier field cannot empty"
            else
              let a := addLeaf a aii "AIIPutCallIdentifier" (strStrip row.i6)
              if row.i7.eqStr "" then
                throwErr .emptyValue "AIIExpiryDate field cannot empty"
              else
                let a := addLeaf a aii "AIIExpiryDate" (strStrip row.i7)
                if row.i8.eqStr "" then
                  throwErr .emptyValue "AIIStrikePrice field cannot empty"
                else Except.ok (addLeaf a aii "AIIStrikePrice" (strStrip row.i8))
      else Except.ok a
    let a := if !(row.desc.eqStr "NTA_NTA_NOTA") then
        let a := addLeaf a mt "PositionValue" (strStrip row.i11)
        addLeaf a mt "PositionType" (pyStrip (pyUpper row.i10.pyStr))
      else a
    if pyStrip (pyUpper row.i10.pyStr) == "S" then
      Except.ok (addLeaf a mt "ShortPositionHedgingRate" (strStrip row.i12))
    else Except.ok a

def aifMainInstrLoop (a : Arena) (mit : Nat) (allRows : List RowA) :
    List RowA → Exc Arena
  | [] => Except.ok a
  | row :: rest => do
      let a ← aifMainInstrStep a mit allRows row
      aifMainInstrLoop a mit allRows rest

/-- AIF.py lines 543-548: rows 78..85, all required. -/
def aifNAVGeoLoop (a : Arena) (p : Nat) : List (String × Value) → Exc Arena
  | [] => Except.ok a
  | (k, v) :: rest =>
      if !(v.eqStr "") then aifNAVGeoLoop (addLeaf a p k (strStrip v)) p rest
      else throwErr .emptyValue (k ++ " cannot be empty")

/-- AIF.py lines 567-609: one iteration of the principal-exposures loop
(rows tagged `p1`..`p10`).  `cp` is the Python variable
`CounterpartyIdentification`, which persists across iterations. -/
def aifPrincipalExpStep (a : Arena) (pes : Nat) (cp : Option Nat)
    (row : RowA) : Exc (Arena × Option Nat) := do
  let (a, pe) := subElem a pes "PrincipalExposure"
  let a := addLeaf a pe "Ranking" (strStrip row.id)
  let a := addLeaf a pe "AssetMacroType" (strStrip row.desc)
  if !(row.desc.eqStr "NTA") then do
    let a := addLeaf a pe "SubAssetType" (strStrip row.i1)
    let a := addLeaf a pe "PositionType" (strStrip row.i2)
    let a := addLeaf a pe "AggregatedValueAmount" (strStrip row.i3)
    let a := addLeaf a pe "AggregatedValueRate" (strStrip row.i4)
    let (a, cp) ← if !(row.i5.eqStr "") then
        let (a, c) := subElem a pe "CounterpartyIdentification"
        Except.ok (addLeaf a c "EntityName" (strStrip row.i5), some c)
      else Except.ok (a, cp)
    let a ← if !(row.i7.eqStr "") then
        match cp with
        | some c => Except.ok (addLeaf a c "EntityIdentificationBIC" (strStrip row.i7))
        | none => throwErr .pyNameError "CounterpartyIdentification is not defined"
      else Except.ok a
    let a ← if !(row.i6.eqStr "") then
        match cp with
        | some c => Except.ok (addLeaf a c "EntityIdentificationLEI" (strStrip row.i6))
        | none => throwErr .pyNameError "CounterpartyIdentification is not defined"
      else Except.ok a
    Except.ok (a, cp)
  else Except.ok (a, cp)

def aifPrincipalExpLoop (a : Arena) (pes : Nat) (cp : Option Nat) :
    List RowA → Exc (Arena × Option Nat)
  | [] => Except.ok (a, cp)
  | row :: rest => do
      let (a, cp) ← aifPrincipalExpStep a pes cp row
      aifPrincipalExpLoop a pes cp rest

/-- AIF.py lines 619-666: one iteration of the portfolio-concentration
loop (rows tagged `q1`..`q5`).  `mi` and `cp` are the Python variables
`MarketIdentification` and `CounterpartyIdentification`; `cp` carries
over from the principal-exposures loop. -/
def aifConcStep (a : Arena) (pcs : Nat) (mi cp : Option Nat) (row : RowA) :
    Exc (Arena × Option Nat × Option Nat) := do
  let (a, pc) := subElem a pcs "PortfolioConcentration"
  let a := addLeaf a pc "Ranking" (strStrip row.id)
  let a := addLeaf a pc "AssetType" (strStrip row.desc)
  let (a, mi) ← if !(row.desc.eqStr "NTA_NTA") then
      let a := addLeaf a pc "PositionType" (strStrip row.i1)
      let (a, m) := subElem a pc "MarketIdentification"
      Except.ok (addLeaf a m "MarketCodeType" (strStrip row.i2), some m)
    else Except.ok (a, mi)
  let a ← if row.i2.eqStr "MIC" then
      match mi with
      | some m => Except.ok (addLeaf a m "MarketCode" (strStrip row.i3))
      | none => throwErr .pyNameError "MarketIdentification is not defined"
    else Except.ok a
  let a := addLeaf a pc "AggregatedValueAmount" (strStrip row.i4)
  let a := addLeaf a pc "AggregatedValueRate" (strStrip row.i5)
  let (a, cp) ← if row.i2.eqStr "OTC" && !(row.i6.eqStr "") then
      let (a, c) := subElem a pc "CounterpartyIdentification"
      Except.ok (addLeaf a c "EntityName" (strStrip row.i6), some c)
    else Except.ok (a, cp)
  let a ← if !(row.i8.eqStr "") then
      match cp with
      | some c => Except.ok (addLeaf a c "EntityIdentificationBIC" (strStrip row.i8))
      | none => throwErr .pyNameError "CounterpartyIdentification is not defined"
    else Except.ok a
  let a ← if !(row.i7.eqStr "") then
      match cp with
      | some c => Except.ok (addLeaf a c "EntityIdentificationLEI" (strStrip row.i7))
      | none => throwErr .pyNameError "CounterpartyIdentification is not defined"
    else Except.ok a
  Except.ok (a, mi, cp)

def aifConcLoop (a : Arena) (pcs : Nat) (mi cp : Option Nat) :
    List RowA → Exc (Arena × Option Nat × Option Nat)
  | [] => Except.ok (a, mi, cp)
  | row :: rest => do
      let (a, mi, cp) ← aifConcStep a pcs mi cp row
      aifConcLoop a pcs mi cp rest

/-- AIF.py lines 681-710: one iteration of the principal-markets loop
(rows tagged `r1`..`r3`). -/
def aifMarketStep (a : Arena) (apms : Nat) (row : RowA) : Exc Arena := do
  let (a, apm) := subElem a apms "AIFPrincipalMarket"
  let a := addLeaf a apm "Ranking" (strStrip row.id)
  if row.desc.eqStr "" then
    throwErr .emptyValue "MarketIdentification cannot be empty"
  else do
    let (a, mi) := subElem a apm "MarketIdentification"
    let a := addLeaf a mi "MarketCodeType" (pyStrip (pyUpper row.desc.pyStr))
    if pyStrip (pyUpper row.desc.pyStr) == "MIC" && row.i1.eqStr "" then
      throwErr .emptyValue "MarketCode cannot be empty"
    else do
      let a := if pyStrip (pyUpper row.desc.pyStr) == "MIC" then
          addLeaf a mi "MarketCode" (strStrip row.i1)
        else a
      if pyStrip (pyUpper row.desc.pyStr) != "NOT" && row.i2.eqStr "" then
        throwErr .emptyValue "MarketCode cannot be empty"
      else
        Except.ok (if pyStrip (pyUpper row.desc.pyStr) != "NOT" then
          addLeaf a apm "AggregatedValueAmount" (strStrip row.i2)
        else a)

def aifMarketLoop (a : Arena) (apms : Nat) : List RowA → Exc Arena
  | [] => Except.ok a
  | row :: rest => do
      let a ← aifMarketStep a apms row
      aifMarketLoop a apms rest

/-- AIF.py lines 720-725: rows 118..120, all required. -/
def aifInvConcLoop (a : Arena) (p : Nat) : List (String × Value) → Exc Arena
  | [] => Except.ok a
  | (k, v) :: rest =>
      if !(v.eqStr "") then aifInvConcLoop (addLeaf a p k (strStrip v)) p rest
      else throwErr .emptyValue (k ++ " cannot be empty")

/-- The body of `aif_xml` for one file: everything below the root element.
Index 0 of the resulting arena is the `AIFReportingInfo` root. -/
def aifBody (df : List RowA) : Exc Arena := do
  let a : Arena := [⟨"AIFReportingInfo", 0, none⟩]
  let (a, rec) := subElem a 0 "AIFRecordInfo"
  let a ← aifSec4to9 a rec (sectionDictA df 4 10)
  let a ← aifSec10to15 a rec (sectionDictA df 10 16)
  let a ← aifSec16to23 a rec (sectionDictA df 16 24)
  let identifiers ← aifIdentifiersDict df
  let (a, cd) := subElem a rec "AIFCompleteDescription"
  let (a, pinfo) := subElem a cd "AIFPrincipalInfo"
  let a ← aifIdentifierSec a pinfo identifiers
  let a ← aifShareClassSec a pinfo (sectionDictA df 33 41)
  let masterFeeder := sectionDictA df 41 45
  let (a, ad) ← aifMasterFeederSec a pinfo masterFeeder
  let a ← aifPrimeBrokerSec a ad (sectionDictA df 45 48) identifiers
  let principalValues := sectionDictA df 48 54
  let a ← aifValuesSec a ad principalValues
  let jur := sectionDictA df 54 58
  let a ← aifJurisdictionSec a ad jur
  let a ← aifInvestmentSec a ad jur (sectionDictA df 58 61)
  let a := aifHFTSec a ad
    ((rowsIdInA df (strIds 62 64)).map (fun r => (r.tag, r.i1)))
  let mrows := rowsTagInA df ["m1", "m2", "m3", "m4", "m5"]
  let (a, mit) := subElem a pinfo "MainInstrumentsTraded"
  let a ← aifMainInstrLoop a mit mrows mrows
  let (a, nav) := subElem a pinfo "NAVGeographicalFocus"
  let a ← aifNAVGeoLoop a nav
    (dictOf ((rowsIdInA df (strIds 78 86)).map (fun r => (r.tag, r.i1))))
  let aumGeo := dictOf ((rowsIdInA df (strIds 86 94)).map (fun r => (r.tag, r.i1)))
  let a := if dictTruthy aumGeo then
      let (a, ag) := subElem a pinfo "AUMGeographicalFocus"
      aumGeo.foldl (fun a p => addLeaf a ag p.1 (strStrip p.2)) a
    else a
  let prows := rowsTagInA df
    ["p1", "p2", "p3", "p4", "p5", "p6", "p7", "p8", "p9", "p10"]
  let (a, pes) := subElem a pinfo "PrincipalExposures"
  let (a, cp) ← aifPrincipalExpLoop a pes none prows
  let qrows := rowsTagInA df ["q1", "q2", "q3", "q4", "q5"]
  let (a, mic) := subElem a pinfo "MostImportantConcentration"
  let (a, pcs) := subElem a mic "PortfolioConcentrations"
  let (a, _, _) ← aifConcLoop a pcs none cp qrows
  let tps ← pyGet ((rowsIdInA df [.vstr "113"]).map (fun r => r.i1)) 0
  let pt ← dget jur "PredominantAIFType"
  let a := if pt.eqStr "PEQF" then
      addLeaf a mic "TypicalPositionSize" (strStrip tps)
    else a
  let rrows := rowsTagInA df ["r1", "r2", "r3"]
  let (a, apms) := subElem a mic "AIFPrincipalMarkets"
  let a ← aifMarketLoop a apms rrows
  let (a, ic) := subElem a mic "InvestorConcentration"
  aifInvConcLoop a ic
    (dictOf ((rowsIdInA df (strIds 118 121)).map (fun r => (r.tag, r.i1))))

/-- The AIF creation timestamp: `strftime('%Y-%m-%dT%H:%M:%S.0Z')` is the
seconds-precision timestamp followed by the literal fraction and zone. -/
def aifTimestamp (t : String) : String := t ++ ".0Z"

/-- Root attributes of the AIF report (AIF.py lines 133-138). -/
def aifRootAttrs (t : String) (h0 h1 : String × Value) :
    List (String × String) :=
  let d := dictSet [] "xsi:noNamespaceSchemaLocation" "AIFMD_DATAIF_V1.2.xsd"
  let d := dictSet d "CreationDateAndTime" (aifTimestamp t)
  let d := dictSet d h0.1 (strStrip h0.2)
  let d := dictSet d h1.1 (strStrip h1.2)
  dictSet d "xmlns:xsi" "http://www.w3.org/2001/XMLSchema-instance"

/-- `aif_xml` for one input file (AIF.py lines 112-725). -/
def aifBuildFile (t : String) (df : List RowA) : Exc XDoc := do
  let hks := headerFileKeysOfA df
  let h0 ← pyGet hks 0
  let h1 ← pyGet hks 1
  if h0.2.pyTruthy && h1.2.eqStr "" then
    throwErr .emptyValue (h0.1 ++ " and " ++ h1.1 ++ " fields cannot be empty!")
  else do
    let a ← aifBody df
    Except.ok ⟨aifRootAttrs t h0 h1, a⟩

def aifRunGo (t : String) : List (String × List RowA) →
    Option (String × XDoc) → RunResult
  | [], last =>
      ⟨match last with | some l => [l] | none => [], none⟩
  | (name, df) :: rest, _ =>
      match aifBuildFile t df with
      | .ok doc => aifRunGo t rest (some (name, doc))
      | .error e => ⟨[], some e⟩

/-- `aif_xml(files)`: the whole loop sits in one `try` and — unlike the
AIFM variant — `tree.write` sits AFTER the loop (AIF.py lines 727-728),
so at most the last file's document is ever written. -/
def aifRun (t : String) (files : List (String × List RowA)) : RunResult :=
  if files.length == 0 then ⟨[], some noFilesErr⟩
  else aifRunGo t files none

end OFK

namespace OFK

/-! ## The OFK converter (`src/OFKReport.py`, `generateXML`)

The pandas sheet munging (lines 191-301) is input parsing (out of scope
per the spec): the embedding starts from the `dataframes` list the code
assembles — per worksheet its form tag, its sheet name, the `Kolomtag`
header row (as recorded in `columns_to_validate`, i.e. before the
blocked-column drops) and the transposed data rows, each row an ordered
association of kolomtag to cell value. -/

structure OFKSheet where
  formName : String
  sheet : String
  cols : List String
  rows : List (List (String × Value))
  deriving DecidableEq, Repr

/-- OFKReport.py lines 131-165: subform tag to control tag. -/
def subformRegeltag : List (String × String) :=
  [
    ("AD-A", "AlgDeeln"), ("AD-C", "DeelnAct"), ("ADO-C", "OnrGoed"),
    ("AEB-A", "Aandelen"), ("AEB-AI", "Aandelen"), ("AEBB-A", "Aandelen"),
    ("AEBB-AI", "Aandelen"), ("AEBB-G", "GeldmarktPap"), ("AEBB-K", "KapitaalmarktPap"),
    ("AEBB-KGI", "Schuldpapier"), ("AEB-G", "GeldmarktPap"), ("AEB-K", "KapitaalmarktPap"),
    ("AEB-KGI", "Schuldpapier"), ("AEI-A", "Aandelen"), ("AEI-AI", "Aandelen"),
    ("AEI-G", "GeldmarktPap"), ("AEI-K", "KapitaalmarktPap"), ("AEI-KGI", "Schuldpapier"),
    ("AEL-A", "Aandelen"), ("AEL-AI", "Aandelen"), ("AEL-G", "GeldmarktPap"),
    ("AEL-K", "KapitaalmarktPap"), ("AEL-KGI", "Schuldpapier"), ("AEN-A", "Aandelen"),
    ("AEN-AI", "Aandelen"), ("AENB-A", "Aandelen"), ("AENB-AI", "Aandelen"),
    ("AENB-G", "GeldmarktPap"), ("AENB-K", "KapitaalmarktPap"), ("AENB-KGI", "Schuldpapier"),
    ("AENL-A", "Aandelen"), ("AENL-AI", "Aandelen"), ("AENL-G", "GeldmarktPap"),
    ("AENL-K", "KapitaalmarktPap"), ("AENL-KGI", "Schuldpapier"), ("AEN-G", "GeldmarktPap"),
    ("AEN-K", "KapitaalmarktPap"), ("AEN-KGI", "Schuldpapier"), ("AEU-A", "Aandelen"),
    ("AEU-AI", "Aandelen"), ("AEU-G", "GeldmarktPap"), ("AEU-K", "KapitaalmarktPap"),
    ("AEU-KGI", "Schuldpapier"), ("ANF-C", "ActivaNietFin"), ("ANF-CGM", "ActivaNietFin"),
    ("ANF-CGJ", "ActivaNietFin"), ("AO-DI", "DeelnIntInst"), ("AOE-A", "Aandelen"),
    ("AOE-AI", "Aandelen"), ("AOE-G", "GeldmarktPap"), ("AOE-K", "KapitaalmarktPap"),
    ("AOE-KGI", "Schuldpapier"), ("AO-FL", "LeasesUG"), ("AO-HK", "HandUGK"),
    ("AO-HL", "HandUGL"), ("AO-HY", "HypoUG"), ("AO-LK", "LeningUGK"),
    ("AO-LL", "LeningUGL"), ("AO-OK", "OverigeUGK"), ("AO-OL", "OverigeUGL"),
    ("AO-RC", "RecCourant"), ("AO-RP", "RepoUG"), ("AR", "StichKap"),
    ("AV-LP", "TechVoorz"), ("AV-VV", "LopenAanspr"), ("BENB-A", "Aandelen"),
    ("BENB-AI", "Aandelen"), ("BENB-G", "GeldmarktPap"), ("BENB-K", "KapitaalmarktPap"),
    ("BENB-KGI", "Schuldpapier"), ("BT", "BalansTotaal"), ("D-FB", "Futures"),
    ("D-FN", "Futures"), ("DO-FB", "Futures"), ("D-OK", "OptiesGekocht"),
    ("DO-OK", "OptiesGekocht"), ("DO-OS", "OptiesGeschr"), ("DO-OTR", "OTCDerivaten"),
    ("DO-OTV", "OTVDerivaten"), ("D-OS", "OptiesGeschr"), ("D-OTR", "OTCDerivaten"),
    ("D-OTV", "OTVDerivaten"), ("IO-GO", "OntwHulpGebond"), ("IO-OO", "OntwHulpSchenk"),
    ("IO-XH", "InkomOverdracht"), ("GD-ECM", "DienstExtraConcern"), ("GD-ICM", "DienstIntraConcern"),
    ("GD-GLM", "RandLGebruiksLicent"), ("GD-RLM", "RandLReprodLicent"), ("GD-ECJ", "DienstExtraConcern"),
    ("GD-ICJ", "DienstIntraConcern"), ("GD-GLJ", "RandLGebruiksLicent"), ("GD-RLJ", "RandLReprodLicent"),
    ("IWB", "IntrWaarde"), ("KO-KW", "SchuldKwijtSch"), ("KO-OG", "OnrGoedBtlOv"),
    ("KO-SR", "Stamrechten"), ("KO-VO", "OverKapitOverdr"), ("PD-A", "AlgDeeln"),
    ("PD-C", "DeelnPass"), ("PEN-A", "Aandelen"), ("PEN-AI", "Aandelen"),
    ("PENB-A", "Aandelen"), ("PENB-AI", "Aandelen"), ("PENB-G", "GeldmarktPap"),
    ("PENB-K", "KapitaalmarktPap"), ("PENB-KGI", "Schuldpapier"), ("PENL-A", "Aandelen"),
    ("PENL-AI", "Aandelen"), ("PENL-G", "GeldmarktPap"), ("PENL-K", "KapitaalmarktPap"),
    ("PENL-KGI", "Schuldpapier"), ("PEN-G", "GeldmarktPap"), ("PEN-K", "KapitaalmarktPap"),
    ("PEN-KGI", "Schuldpapier"), ("PN-OS", "NedTegenpartij"), ("PO-FL", "LeasesOG"),
    ("PO-HK", "HandOGK"), ("PO-HL", "HandOGL"), ("PO-LK", "LeningOGK"),
    ("PO-LL", "LeningOGL"), ("PO-OK", "OverigeOGK"), ("PO-OL", "OverigeOGL"),
    ("PO-RP", "RepoOG"), ("PV-LP", "TechVoorz"), ("PV-OV", "OverVoorz"),
    ("PV-VV", "LopenAanspr"), ("SB-K", "ParticipatieUGK"), ("SB-L", "ParticipatieUGL"),
    ("SN-K", "ParticipatieOGK"), ("SN-L", "ParticipatieOGL"), ("WE-A", "Aandelen"),
    ("WE-AI", "Aandelen"), ("WE-G", "GeldmarktPap"), ("WE-K", "KapitaalmarktPap"),
    ("WE-KGI", "Schuldpapier"), ("WI-A", "Aandelen"), ("WI-AI", "Aandelen"),
    ("WI-G", "GeldmarktPap"), ("WI-K", "KapitaalmarktPap"), ("WI-KGI", "Schuldpapier"),
    ("WVA-B", "Bestemming"), ("WVA-R", "Resulaten"), ("WVA-Z", "Resulaten"),
    ("WVB-B", "Baten"), ("WVB-L", "Bedrijfskosten"), ("WVB-O", "Bedrijfskosten"),
    ("WVB-S", "Loonkosten"), ("WVP", "WinstVerlPremUitk"), ("WVP-ZA", "AanvZorg"),
    ("WVP-ZZ", "ZorgZvw"), ("WVT-BL", "TotBatenLasten"), ("WVU-B", "WinstVerlBuiten"),
    ("WVU-L", "LatenUitz") ]

/-- `columns_to_validate`: first-seen `Kolomtag` list per sheet name
(OFKReport.py lines 233-235). -/
def ofkCTV (sheets : List OFKSheet) : List (String × List String) :=
  sheets.foldl
    (fun d s => if d.any (fun p => p.1 == s.sheet) then d
      else d ++ [(s.sheet, s.cols)]) []

/-- Python slice `l[lo:hi]` (negative indices count from the end). -/
def pySlice {α : Type} (l : List α) (lo : Int) (hi : Option Int) : List α :=
  let n := l.length
  let norm : Int → Nat := fun i =>
    let j := if i < 0 then i + n else i
    if j < 0 then 0 else if j > (n : Int) then n else j.toNat
  let lo2 := norm lo
  let hi2 := match hi with | none => n | some h => norm h
  (l.drop lo2).take (hi2 - lo2)

/-- Python `[l[i]]`. -/
def pySingle {α : Type} (l : List α) (i : Nat) : Exc (List α) := do
  let x ← pyGet l i
  Except.ok [x]

def ofkEmptyMsg (k sheet : String) : String :=
  "Column \"" ++ k ++ "\" value of worksheet \"" ++ sheet ++ "\" cannot be empty"

def ofkIntMsg (k sheet : String) : String :=
  "Integer value is required in Column \"" ++ k ++ "\" of worksheet \"" ++ sheet ++ "\""

def ofkStrMsg (k sheet : String) : String :=
  "String value is required in Column \"" ++ k ++ "\" of worksheet \"" ++ sheet ++ "\""

def ofkAssertMsg (k sheet : String) : String :=
  "Non-negative value required at (" ++ k ++ ", " ++ sheet ++ ")"

def ofkLandMsg : String :=
  "Example of accept values required column \"Land\" are \"BE, NL, AZ\" etc."

/-- One validation branch of OFKReport.py lines 310-751: `si` are the
integer-required columns (matched on `k.strip()`), `sn` the subset with
the non-negative assertion (matched on raw `k`), `ss` the string-required
columns (computed lazily, since some branches index a single column and
Python only evaluates that when the first membership test fails), and
`land` says whether the branch has the two-letter `Land` rule. -/
def ofkBranch (sheet k : String) (v : Value) (siE : Exc (List String))
    (sn : List String) (ssE : Exc (List String)) (land : Bool) :
    Exc Unit := do
  let si ← siE
  if si.contains (pyStrip k) then
    if v.eqStr "" then throwErr .emptyValue (ofkEmptyMsg k sheet)
    else if !v.isInt then throwErr .integerValue (ofkIntMsg k sheet)
    else if sn.contains k && !(0 ≤ v.intVal) then
      throwErr .assertionFail (ofkAssertMsg k sheet)
    else Except.ok ()
  else do
    let ss ← ssE
    if ss.contains (pyStrip k) then
      if v.eqStr "" then throwErr .emptyValue (ofkEmptyMsg k sheet)
      else if !v.isStr then throwErr .stringValue (ofkStrMsg k sheet)
      else if land && pyStrip k == "Land" then do
        let n ← pyLen v
        if n != 2 then throwErr .lengthValue ofkLandMsg else Except.ok ()
      else Except.ok ()
    else Except.ok ()

/-- OFKReport.py lines 310-751: the per-cell validation dispatch on the
sheet name, with the column slices taken from `columns_to_validate`. -/
def ofkValidateCell (ctv : List (String × List String)) (sheet k : String)
    (v : Value) : Exc Unit := do
  if sheet == "AD-C" || sheet == "PD-C" then do
    let c ← dget ctv sheet
    ofkBranch sheet k v (Except.ok (pySlice c 3 (some (-1))))
      (pySlice c 4 (some 6) ++ pySlice c 7 (some 8))
      (Except.ok (pySlice c 1 (some 3))) true
  else if sheet == "AD-A" || sheet == "PD-A" then do
    let c ← dget ctv sheet
    ofkBranch sheet k v (Except.ok (pySlice c 3 (some 4))) []
      (Except.ok (pySlice c 1 (some 3) ++ pySlice c (-1) none)) true
  else if sheet == "ADO-C" then do
    let c ← dget ctv sheet
    ofkBranch sheet k v (Except.ok (pySlice c 2 none))
      (pySlice c 2 (some 5) ++ pySlice c (-2) (some (-1)))
      (pySingle c 1) true
  else if sheet == "AEB-A" || sheet == "AEN-A" then do
    let c ← dget ctv sheet
    ofkBranch sheet k v
      (Except.ok (pySlice c 4 (some 11) ++ pySlice c (-1) none))
      (pySlice c 5 (some 7)) (Except.ok (pySlice c 2 (some 4))) true
  else if sheet == "AEB-AI" then do
    let c ← dget ctv sheet
    ofkBranch sheet k v
      (Except.ok (pySlice c 4 (some 7) ++ pySlice c 9 (some 11) ++ pySlice c (-1) none))
      (pySlice c 5 (some 7)) (pySingle c 1) false
  else if sheet == "AEB-G" || sheet == "AEB-K" || sheet == "AEN-G" || sheet == "AEN-K" then do
    let c ← dget ctv sheet
    ofkBranch sheet k v (Except.ok (pySlice c 4 (some (-1))))
      (pySlice c 5 (some 7) ++ pySlice c 13 (some 15))
      (Except.ok (pySlice c 2 (some 4))) true
  else if sheet == "AEB-KGI" then do
    let c ← dget ctv sheet
    ofkBranch sheet k v
      (Except.ok (pySlice c 4 (some 7) ++ pySlice c 9 (some 11) ++ pySlice c 13 (some 15)))
      (pySlice c 5 (some 7) ++ pySlice c 13 (some 15)) (pySingle c 1) false
  else if sheet == "AEN-AI" then do
    let c ← dget ctv sheet
    ofkBranch sheet k v
      (Except.ok (pySlice c 4 (some 7) ++ pySlice c 9 (some 11) ++ pySlice c (-1) none))
      (pySlice c 5 (some 7)) (Except.ok (pySlice c 1 (some 3))) true
  else if sheet == "AEN-KGI" then do
    let c ← dget ctv sheet
    ofkBranch sheet k v
      (Except.ok (pySlice c 4 (some 7) ++ pySlice c 9 (some 11) ++ pySlice c 13 (some 15)))
      (pySlice c 5 (some 7) ++ pySlice c 13 (some 15))
      (Except.ok (pySlice c 1 (some 3))) true
  else if sheet == "ANF-C" then do
    let c ← dget ctv sheet
    ofkBranch sheet k v (Except.ok (pySlice c 1 none))
      (pySlice c 2 (some 4)) (Except.ok []) false
  else if sheet == "AO-FL" || sheet == "AO-HL" || sheet == "AO-LK" || sheet == "AO-LL" || sheet == "AO-RP" then do
    let c ← dget ctv sheet
    ofkBranch sheet k v
      (Except.ok (pySlice c 3 (some 13) ++ pySlice c (-2) none))
      (pySlice c 3 (some 6) ++ pySlice c 9 (some 13) ++ pySlice c (-1) none)
      (Except.ok (pySlice c 1 (some 3))) true
  else if sheet == "AO-HY" then do
    let c ← dget ctv sheet
    ofkBranch sheet k v
      (Except.ok (pySlice c 3 (some 13) ++ pySlice c (-2) none))
      (pySlice c 3 (some 6) ++ pySlice c 9 (some 13) ++ pySlice c (-1) none)
      (pySingle c 1) true
  else if sheet == "AO-OK" || sheet == "AO-OL" then do
    let c ← dget ctv sheet
    ofkBranch sheet k v
      (Except.ok (pySlice c 3 (some 10) ++ pySlice c 12 (some 13)))
      (pySlice c 3 (some 6) ++ pySlice c 9 (some 10) ++ pySlice c 12 (some 13))
      (Except.ok (pySlice c 1 (some 3))) true
  else if sheet == "AO-RC" then do
    let c ← dget ctv sheet
    ofkBranch sheet k v
      (Except.ok (pySlice c 3 (some 10) ++ pySlice c 12 (some 14)))
      (pySlice c 4 (some 6) ++ pySlice c 12 (some 14))
      (Except.ok (pySlice c 1 (some 3))) true
  else if sheet == "D-FB" then do
    let c ← dget ctv sheet
    ofkBranch sheet k v (Except.ok (pySlice c 5 (some 7)))
      (pySlice c 5 (some 7)) (pySingle c 2) true
  else if sheet == "D-OK" || sheet == "D-OS" then do
    let c ← dget ctv sheet
    ofkBranch sheet k v
      (Except.ok (pySlice c 4 (some 7) ++ pySlice c (-2) none))
      (pySlice c 4 (some 7) ++ pySlice c (-2) none)
      (Except.ok (pySlice c 2 (some 4))) true
  else if sheet == "D-OTR" || sheet == "D-OTV" then do
    let c ← dget ctv sheet
    ofkBranch sheet k v
      (Except.ok (pySlice c 4 (some 8) ++ pySlice c (-3) none))
      (pySlice c 4 (some 8) ++ pySlice c (-2) none)
      (Except.ok (pySlice c 2 (some 4))) true
  else if sheet == "GD-ECM" || sheet == "GD-ICM" then do
    let c ← dget ctv sheet
    ofkBranch sheet k v (Except.ok (pySlice c 2 (some 4)))
      (pySlice c 2 (some 4))
      (Except.ok (pySlice c 1 (some 2) ++ pySlice c (-1) none)) true
  else if sheet == "PEN-A" then do
    let c ← dget ctv sheet
    ofkBranch sheet k v
      (Except.ok (pySlice c 3 (some 10) ++ pySlice c (-1) none))
      (pySlice c 4 (some 6) ++ pySlice c 9 (some 10) ++ pySlice c (-1) none)
      (pySingle c 2) true
  else if sheet == "PEN-AI" then do
    let c ← dget ctv sheet
    ofkBranch sheet k v
      (Except.ok (pySlice c 3 (some 6) ++ pySlice c 8 (some 10) ++ pySlice c (-1) none))
      (pySlice c 3 (some 6) ++ pySlice c 9 (some 10) ++ pySlice c (-1) none)
      (Except.ok (pySlice c 1 (some 3))) true
  else if sheet == "PEN-KGI" then do
    let c ← dget ctv sheet
    ofkBranch sheet k v
      (Except.ok (pySlice c 3 (some 6) ++ pySlice c 8 (some 10) ++ pySlice c 13 (some 15)))
      (pySlice c 3 (some 6) ++ pySlice c 9 (some 10) ++ pySlice c 13 (some 15))
      (Except.ok (pySlice c 1 (some 3))) true
  else if sheet == "PEN-G" || sheet == "PEN-K" then do
    let c ← dget ctv sheet
    ofkBranch sheet k v (Except.ok (pySlice c 3 (some (-1))))
      (pySlice c 3 (some 6) ++ pySlice c 9 (some 14) ++ pySlice c (-2) (some (-1)))
      (pySingle c 2) true
  else if sheet == "PO-OK" || sheet == "PO-OL" then do
    let c ← dget ctv sheet
    ofkBranch sheet k v
      (Except.ok (pySlice c 3 (some 10) ++ pySlice c (-3) (some (-2))))
      (pySlice c 3 (some 6) ++ pySlice c 9 (some 10) ++ pySlice c (-3) (some (-2)))
      (Except.ok (pySlice c 1 (some 3))) true
  else if sheet == "PV-OV" then do
    let c ← dget ctv sheet
    ofkBranch sheet k v (Except.ok (pySlice c 3 none))
      (pySlice c 4 (some 6)) (Except.ok []) false
  else if sheet == "PO-FL" || sheet == "PO-HL" || sheet == "PO-LK" || sheet == "PO-LL" || sheet == "PO-RP" then do
    let c ← dget ctv sheet
    ofkBranch sheet k v
      (Except.ok (pySlice c 3 (some 12) ++ pySlice c (-3) none))
      (pySlice c 3 (some 6) ++ pySlice c 9 (some 12) ++
        pySlice c (-3) (some (-2)) ++ pySlice c (-1) none)
      (Except.ok (pySlice c 1 (some 3))) true
  else if sheet == "WVA-B" then do
    let c ← dget ctv sheet
    ofkBranch sheet k v (pySingle c 2) [] (Except.ok []) false
  else if sheet == "WVB-B" || sheet == "WVB-L" || sheet == "WVB-S" then do
    let c ← dget ctv sheet
    let sn ← pySingle c 2
    ofkBranch sheet k v (pySingle c 2) sn (Except.ok []) false
  else if sheet == "WVU-B" || sheet == "WVU-L" then do
    let c ← dget ctv sheet
    let sn ← pySingle c 2
    ofkBranch sheet k v (pySingle c 2) sn (pySingle c 1) false
  else if sheet == "WVA-R" then do
    let c ← dget ctv sheet
    ofkBranch sheet k v (pySingle c 1) [] (Except.ok []) false
  else Except.ok ()

def ofkValidateRow (ctv : List (String × List String)) (sheet : String) :
    List (String × Value) → Exc Unit
  | [] => Except.ok ()
  | (k, v) :: rest => do
      ofkValidateCell ctv sheet k v
      ofkValidateRow ctv sheet rest

def ofkValidateSheet (ctv : List (String × List String)) (s : OFKSheet) :
    List (List (String × Value)) → Exc Unit
  | [] => Except.ok ()
  | row :: rest => do
      ofkValidateRow ctv s.sheet row
      ofkValidateSheet ctv s rest

/-- The three nested validation loops (OFKReport.py lines 305-751). -/
def ofkValidate (ctv : List (String × List String)) :
    List OFKSheet → Exc Unit
  | [] => Except.ok ()
  | s :: rest => do
      ofkValidateSheet ctv s s.rows
      ofkValidate ctv rest

/-- `generated_file_date` (OFKReport.py lines 173-175): the year part of
today followed by a literal `'0'` and the decimal of (month - 1). -/
def ofkDateStr (y : String) (m : Int) : String :=
  y ++ "0" ++ toString (m - 1)

/-- Root attributes of the OFK report (OFKReport.py lines 177-180). -/
def ofkRootAttrs (y : String) (m : Int) : List (String × String) :=
  let d := dictSet [] "xmlns" "bb.dnb.nl"
  let d := dictSet d "xmlns:xsi" "http://www.w3.org/2001/XMLSchema-instance"
  dictSet d "xsi:schemaLocation" ("bb.dnb.nl " ++ "OFK-K." ++ ofkDateStr y m ++ ".xsd")

/-- OFKReport.py lines 777-782 / 788-793: fill one subform element with
one control-tag element per data row, one leaf per kolomtag. -/
def ofkFillSubform (a : Arena) (sub : Nat) (sheet : String) :
    List (List (String × Value)) → Exc Arena
  | [] => Except.ok a
  | row :: rest => do
      let ct ← dget subformRegeltag sheet
      let (a, ctn) := subElem a sub ct
      let a := row.foldl (fun a p => addLeaf a ctn p.1 (strStrip p.2)) a
      ofkFillSubform a sub sheet rest

/-- OFKReport.py lines 773-794: the document-building loop.  The Python
variable `formName` holds the most recently created form element, so a
repeated form tag attaches its subform under that element. -/
def ofkBuildForms (a : Arena) (existing : List String) (lastF : Option Nat) :
    List OFKSheet → Exc Arena
  | [] => Except.ok a
  | s :: rest => do
      if existing.contains s.formName then
        match lastF with
        | some f =>
            let (a, sub) := subElem a f s.sheet
            let a ← ofkFillSubform a sub s.sheet s.rows
            ofkBuildForms a existing lastF rest
        | none => throwErr .pyNameError "formName element is not defined"
      else
        let (a, f) := subElem a 0 s.formName
        let (a, sub) := subElem a f s.sheet
        let a ← ofkFillSubform a sub s.sheet s.rows
        ofkBuildForms a (existing ++ [s.formName]) (some f) rest

/-- One OFK file: root with namespace attributes, the `rappOpmerkingen`
remark (whose text embeds the generation month), then one element per
form/subform.  The validation pass must already have succeeded. -/
def ofkBuildDoc (y : String) (m : Int) (sheets : List OFKSheet) : Exc XDoc := do
  let a : Arena := [⟨"OFK-K", 0, none⟩]
  let a := addLeaf a 0 "rappOpmerkingen" ("OFK " ++ ofkDateStr y m)
  let a ← ofkBuildForms a [] none sheets
  Except.ok ⟨ofkRootAttrs y m, a⟩

/-- The error classes caught by the per-file handlers
(OFKReport.py lines 753-771). -/
def ofkCatchable : ErrKind → Bool
  | .integerValue => true
  | .assertionFail => true
  | .emptyValue => true
  | .stringValue => true
  | .lengthValue => true
  | _ => false

structure OFKRunResult where
  written : List (String × XDoc)
  logs : List Err
  crashed : Option Err
  deriving DecidableEq, Repr

/-- `generateXML(files)` (OFKReport.py lines 167-799): the `try` sits
INSIDE the per-file loop, validation errors of the five catchable classes
are logged and the loop continues with the next file; the document is
built and written in the `else` clause, so a failed file writes nothing.
Any other exception escapes `generateXML` and aborts the batch. -/
def ofkRun (y : String) (m : Int) :
    List (String × List OFKSheet) → OFKRunResult
  | [] => ⟨[], [], none⟩
  | (name, sheets) :: rest =>
      let ctv := ofkCTV sheets
      match ofkValidate ctv sheets with
      | .error e =>
          if ofkCatchable e.kind then
            let r := ofkRun y m rest
            ⟨r.written, e :: r.logs, r.crashed⟩
          else ⟨[], [e], some e⟩
      | .ok () =>
          match ofkBuildDoc y m sheets with
          | .error e => ⟨[], [], some e⟩
          | .ok doc =>
              let r := ofkRun y m rest
              ⟨(name, doc) :: r.written, r.logs, r.crashed⟩

end OFK

namespace OFK

/-! ## Concrete input tables used by the claim theorems -/

/-- An AIFM dataframe row with only a tag, row id and first input cell. -/
def mkRowM (tag : String) (id : Value) (in1 : Value) : RowM :=
  ⟨tag, id, .vstr "", in1, .vstr ""⟩

/-- An AIFM market row (`Id`, `XMLDescription`, `Input_1`, `Input_2`). -/
def mkMktRowM (id : Value) (desc : Value) (in1 in2 : Value) : RowM :=
  ⟨"", id, desc, in1, in2⟩

/-- A minimal AIFM table that builds successfully. -/
def goodM : List RowM :=
  [ mkRowM "H0Tag" (.vstr "1") (.vstr "x"),
    mkRowM "H1Tag" (.vstr "2") (.vstr "y"),
    mkRowM "AIFMReportingObligationChangeFrequencyCode" (.vstr "10") (.vstr ""),
    mkRowM "AIFMReportingObligationChangeContentsCode" (.vstr "11") (.vstr ""),
    mkRowM "AIFMReportingObligationChangeQuarter" (.vstr "12") (.vstr ""),
    mkRowM "LastReportingFlag" (.vstr "13") (.vstr "True"),
    mkRowM "QuestionNumber" (.vstr "14") (.vstr ""),
    mkRowM "AssumptionDescription" (.vstr "15") (.vstr ""),
    mkRowM "AUMAmountInEuro" (.vstr "33") (.vint 5),
    mkRowM "AUMAmountInBaseCurrency" (.vstr "34") (.vstr "") ]

/-- `goodM` with the required `LastReportingFlag` emptied. -/
def badM : List RowM :=
  [ mkRowM "H0Tag" (.vstr "1") (.vstr "x"),
    mkRowM "H1Tag" (.vstr "2") (.vstr "y"),
    mkRowM "AIFMReportingObligationChangeFrequencyCode" (.vstr "10") (.vstr ""),
    mkRowM "AIFMReportingObligationChangeContentsCode" (.vstr "11") (.vstr ""),
    mkRowM "AIFMReportingObligationChangeQuarter" (.vstr "12") (.vstr ""),
    mkRowM "LastReportingFlag" (.vstr "13") (.vstr ""),
    mkRowM "QuestionNumber" (.vstr "14") (.vstr ""),
    mkRowM "AssumptionDescription" (.vstr "15") (.vstr ""),
    mkRowM "AUMAmountInEuro" (.vstr "33") (.vint 5),
    mkRowM "AUMAmountInBaseCurrency" (.vstr "34") (.vstr "") ]

/-- An AIF dataframe row with only a tag, row id and first input cell. -/
def mkRowA (tag : String) (id : Value) (in1 : Value) : RowA :=
  ⟨tag, id, .vstr "", in1, .vstr "", .vstr "", .vstr "", .vstr "", .vstr "",
   .vstr "", .vstr "", .vstr "", .vstr "", .vstr "", .vstr ""⟩

/-- An AIF principal-market row (tag `r1`..`r3`; `Id`, description,
`Input_1`, `Input_2`). -/
def mkMktRowA (tag : String) (id : Value) (desc : Value) (in1 in2 : Value) :
    RowA :=
  ⟨tag, id, desc, in1, in2, .vstr "", .vstr "", .vstr "", .vstr "",
   .vstr "", .vstr "", .vstr "", .vstr "", .vstr "", .vstr ""⟩

/-- A minimal AIF table that builds successfully. -/
def goodA : List RowA :=
  [ mkRowA "H0Tag" (.vstr "1") (.vstr "x"),
    mkRowA "H1Tag" (.vstr "2") (.vstr "y"),
    mkRowA "AIFReportingObligationChangeFrequencyCode" (.vstr "10") (.vstr ""),
    mkRowA "AIFReportingObligationChangeContentsCode" (.vstr "11") (.vstr ""),
    mkRowA "AIFReportingObligationChangeQuarter" (.vstr "12") (.vstr ""),
    mkRowA "LastReportingFlag" (.vstr "13") (.vstr "True"),
    mkRowA "QuestionNumber" (.vstr "14") (.vstr ""),
    mkRowA "AssumptionDescription" (.vstr "15") (.vstr ""),
    mkRowA "ShareClassFlag" (.vstr "33") (.vstr "false"),
    mkRowA "AIFMasterFeederStatus" (.vstr "41") (.vstr "NONE"),
    mkRowA "BaseCurrency" (.vstr "48") (.vstr "EUR"),
    mkRowA "AIFNetAssetValue" (.vstr "49") (.vstr "100"),
    mkRowA "AUMAmountInBaseCurrency" (.vstr "50") (.vstr "5"),
    mkRowA "FXEURReferenceRateType" (.vstr "51") (.vstr ""),
    mkRowA "PredominantAIFType" (.vstr "54") (.vstr "HFND"),
    mkRowA "TypicalPositionSize" (.vstr "113") (.vstr "ts") ]

/-- `goodA` extended with a principal-market row whose market-code type is
`XXX` (not `NOT`) and whose required aggregated-value cell is empty. -/
def c1Table : List RowA :=
  goodA ++ [mkMktRowA "r1" (.vstr "114") (.vstr "XXX") (.vstr "") (.vstr "")]

/-- The AIF values dict of template shape (rows 48..53). -/
def aifValuesDict (bc nav aumB rt rate od : Value) : List (String × Value) :=
  [ ("BaseCurrency", bc), ("AIFNetAssetValue", nav),
    ("AUMAmountInBaseCurrency", aumB), ("FXEURReferenceRateType", rt),
    ("FXEURRate", rate), ("FXEUROtherReferenceRateDescription", od) ]

/-- The AIFM values dict of template shape (rows 33..38). -/
def aifmValuesDict (aumE aumB bc rt rate od : Value) : List (String × Value) :=
  [ ("AUMAmountInEuro", aumE), ("AUMAmountInBaseCurrency", aumB),
    ("BaseCurrency", bc), ("FXEURReferenceRateType", rt),
    ("FXEURRate", rate), ("FXEUROtherReferenceRateDescription", od) ]

/-- A one-element arena to seed section-level evaluations. -/
def seedArena (tag : String) : Arena := [⟨tag, 0, none⟩]

/-- A 301-character description. -/
def longDesc301 : String := String.mk (List.replicate 301 'a')

/-- A 300-character description. -/
def longDesc300 : String := String.mk (List.replicate 300 'a')

/-- The AIF rows-10..15 dict with a question number and an over-long
assumption description. -/
def c6Dict (desc : String) : List (String × Value) :=
  [ ("AIFReportingObligationChangeFrequencyCode", .vstr ""),
    ("AIFReportingObligationChangeContentsCode", .vstr ""),
    ("AIFReportingObligationChangeQuarter", .vstr ""),
    ("LastReportingFlag", .vstr "x"),
    ("QuestionNumber", .vstr "1"),
    ("AssumptionDescription", .vstr desc) ]

/-- The AIFM analogue of `c6Dict`. -/
def c6DictM (desc : String) : List (String × Value) :=
  [ ("AIFMReportingObligationChangeFrequencyCode", .vstr ""),
    ("AIFMReportingObligationChangeContentsCode", .vstr ""),
    ("AIFMReportingObligationChangeQuarter", .vstr ""),
    ("LastReportingFlag", .vstr "x"),
    ("QuestionNumber", .vstr "1"),
    ("AssumptionDescription", .vstr desc) ]

/-- Five AIFM market rows in ranked order `1st`..`5th`, all with distinct
market-code types and valid amounts. -/
def c8Rows : List RowM :=
  [ mkMktRowM (.vstr "1st") (.vstr "XXX") (.vstr "") (.vint 1),
    mkMktRowM (.vstr "2nd") (.vstr "OTC") (.vstr "") (.vint 2),
    mkMktRowM (.vstr "3rd") (.vstr "NOT") (.vstr "") (.vint 3),
    mkMktRowM (.vstr "4th") (.vstr "XXX") (.vstr "") (.vint 4),
    mkMktRowM (.vstr "5th") (.vstr "OTC") (.vstr "") (.vint 5) ]

/-- The same five rows with the `1st` and `2nd` rows swapped in table
order. -/
def c8RowsSwapped : List RowM :=
  [ mkMktRowM (.vstr "2nd") (.vstr "OTC") (.vstr "") (.vint 2),
    mkMktRowM (.vstr "1st") (.vstr "XXX") (.vstr "") (.vint 1),
    mkMktRowM (.vstr "3rd") (.vstr "NOT") (.vstr "") (.vint 3),
    mkMktRowM (.vstr "4th") (.vstr "XXX") (.vstr "") (.vint 4),
    mkMktRowM (.vstr "5th") (.vstr "OTC") (.vstr "") (.vint 5) ]

/-- Is there an `AIFMFivePrincipalMarket`-shaped group in the arena whose
`Ranking` is `rank` and whose `MarketIdentification/MarketCodeType` is
`code`? -/
def marketRankedWithCode (a : Arena) (rank code : String) : Bool :=
  (List.range a.length).any (fun mkt =>
    a.any (fun n => n.tag == "Ranking" && n.parent == mkt && n.text == some rank) &&
    (List.range a.length).any (fun mi =>
      (nodeAt a mi).tag == "MarketIdentification" && (nodeAt a mi).parent == mkt &&
      a.any (fun n => n.tag == "MarketCodeType" && n.parent == mi && n.text == some code)))

/-- A tiny OFK worksheet (sheet `BT` has no validation branch). -/
def sheetBT : OFKSheet :=
  ⟨"Form1", "BT", ["regel", "BalansTot"], [[("BalansTot", .vint 7)]]⟩

/-- Strip the creation-timestamp attribute from a document (the exclusion
the idempotence claim allows). -/
def stripCreation (doc : XDoc) : XDoc :=
  ⟨doc.attrs.filter (fun p => p.1 != "CreationDateAndTime"), doc.arena⟩

/-- Strip every time-derived part of an OFK document: the month-derived
`xsi:schemaLocation` attribute and the `rappOpmerkingen` text. -/
def stripOFKDate (doc : XDoc) : XDoc :=
  ⟨doc.attrs.filter (fun p => p.1 != "xsi:schemaLocation"),
   doc.arena.map (fun n =>
     if n.tag == "rappOpmerkingen" then { n with text := none } else n)⟩

end OFK

namespace OFK

/-- C1: the claim that every required-but-empty field aborts construction
with an error naming THAT field fails in the AIF principal-market section:
with market-code type `XXX` (which is not `NOT`) and an empty
aggregated-value cell, the builder raises EmptyValueError whose message
names `MarketCode` — a different field — and, at driver level, no XML
document is written for the file. -/
theorem C1_code_bug_eval :
    aifMarketStep (seedArena "AIFPrincipalMarkets") 0
        (mkMktRowA "r1" (.vstr "114") (.vstr "XXX") (.vstr "") (.vstr ""))
      = Except.error ⟨.emptyValue, "MarketCode cannot be empty"⟩ ∧
    aifRun "TS" [("f", c1Table)]
      = ⟨[], some ⟨.emptyValue, "MarketCode cannot be empty"⟩⟩ := by
  constructor
  · rfl
  · rfl

/-- C2: counterexample — in the AIFM converter an error in the first file
of a batch prevents the second (independently valid) file from being
processed: nothing is written for it and the batch stops after logging
one error. -/
theorem C2_counterexample :
    (aifmBuildFile "T" goodM).isOk = true ∧
    aifmRun "T" [("bad", badM), ("good", goodM)]
      = ⟨[], some ⟨.emptyValue, "LastReportingFlag field cannot be empty!"⟩⟩ := by
  constructor
  · rfl
  · rfl

/-- C3: the AIF generator does NOT write one XML document per input file:
`tree.write` sits after the per-file loop, so a batch of two valid files
produces a single document (the last file's).  The AIFM generator does
write both, and the fixed schema-location and creation-timestamp
attributes are as claimed (fractional seconds and `Z` in AIF, bare
seconds in AIFM). -/
theorem C3_code_bug_eval :
    (aifRun "TS" [("a", goodA), ("b", goodA)]).written.map Prod.fst = ["b"] ∧
    (aifRun "TS" [("a", goodA), ("b", goodA)]).logged = none ∧
    (aifRun "TS" [("a", goodA), ("b", goodA)]).written.map
        (fun p => p.2.attrs.lookup "CreationDateAndTime") = [some "TS.0Z"] ∧
    (aifRun "TS" [("a", goodA), ("b", goodA)]).written.map
        (fun p => p.2.attrs.lookup "xsi:noNamespaceSchemaLocation")
      = [some "AIFMD_DATAIF_V1.2.xsd"] ∧
    (aifmRun "TS" [("a", goodM), ("b", goodM)]).written.map Prod.fst
      = ["a", "b"] ∧
    (aifmRun "TS" [("a", goodM), ("b", goodM)]).written.map
        (fun p => p.2.attrs.lookup "CreationDateAndTime")
      = [some "TS", some "TS"] ∧
    (aifmRun "TS" [("a", goodM), ("b", goodM)]).written.map
        (fun p => p.2.attrs.lookup "xmlns:xsi")
      = [some "http://www.w3.org/2001/XMLSchema-instance",
         some "http://www.w3.org/2001/XMLSchema-instance"] := by
  refine ⟨rfl, rfl, rfl, rfl, rfl, rfl, rfl⟩

/-- C4: counterexample — `AUMAmountInBaseCurrency` with the whole number 0
is NOT accepted and emitted: the gating condition tests Python truthiness
of the value, `0` is falsy, and the whole base-currency block is skipped
without error and without emitting the node. -/
theorem C4_counterexample :
    aifmValuesSec (seedArena "AIFMCompleteDescription") 0
        (aifmValuesDict (.vint 5) (.vint 0) (.vstr "EUR") (.vstr "") (.vstr "") (.vstr ""))
      = Except.ok
          [⟨"AIFMCompleteDescription", 0, none⟩,
           ⟨"AUMAmountInEuro", 0, some "5"⟩,
           ⟨"AIFMBaseCurrencyDescription", 0, none⟩] ∧
    (aifmValuesSec (seedArena "AIFMCompleteDescription") 0
        (aifmValuesDict (.vint 5) (.vint 0) (.vstr "EUR") (.vstr "") (.vstr "") (.vstr ""))).map
      (fun a => hasTag a "AUMAmountInBaseCurrency") = Except.ok false := by
  constructor
  · rfl
  · rfl

/-- C5: the conditional FX rule fails in the AIFM converter: with base
currency `USD`, reference-rate type `OTH` and an EMPTY other-reference-rate
description, AIFM raises no error and emits the description node with
empty text (its line-398 condition is inverted), while the AIF converter
(for the same field values) fails with the claimed missing-required-field
error. -/
theorem C5_code_bug_eval :
    aifValuesSec (seedArena "AIFDescription") 0
        (aifValuesDict (.vstr "USD") (.vstr "100") (.vstr "5") (.vstr "OTH")
          (.vstr "1.1") (.vstr ""))
      = Except.error ⟨.emptyValue, "FXEUROthReferenceRateDescription cannot be empty"⟩ ∧
    (aifmValuesSec (seedArena "AIFMCompleteDescription") 0
        (aifmValuesDict (.vint 5) (.vint 7) (.vstr "USD") (.vstr "OTH")
          (.vstr "1.1") (.vstr ""))).map
      (fun a => hasLeaf a "FXEUROtherReferenceRateDescription" "") = Except.ok true := by
  constructor
  · rfl
  · rfl

/-- C6: the 300-character limit on `AssumptionDescription` is dead code in
both converters: the guard requires the description to be EMPTY before the
length test, so a 301-character description raises no length error and is
silently dropped (neither `QuestionNumber` nor `AssumptionDescription` is
emitted), and a 300-character description is not emitted either. -/
theorem C6_code_bug_eval :
    ((aifSec10to15 (seedArena "AIFRecordInfo") 0 (c6Dict longDesc301)).map
      (fun a => (hasTag a "AssumptionDescription", hasTag a "QuestionNumber"))
        = Except.ok (false, false)) ∧
    ((aifSec10to15 (seedArena "AIFRecordInfo") 0 (c6Dict longDesc300)).map
      (fun a => hasTag a "AssumptionDescription") = Except.ok false) ∧
    ((aifmSec10to15 (seedArena "AIFMRecordInfo") 0 (c6DictM longDesc301)).map
      (fun a => (hasTag a "AssumptionDescription", hasTag a "QuestionNumber"))
        = Except.ok (false, false)) := by
  refine ⟨rfl, rfl, rfl⟩

/-- C8: counterexample — the Ranking of an AIFM principal market is NOT
determined by the `1st`..`5th` row identifiers: with the `1st` and `2nd`
rows swapped in table order, the market of the `2nd`-identified row (code
`OTC`) receives Ranking 1 and not Ranking 2, and the output differs from
the output for the identifier-ordered table. -/
theorem C8_counterexample :
    ((aifmMarketsLoop (seedArena "AIFMPrincipalMarkets") 0
        (aifmMarketRows c8RowsSwapped) 0).map
      (fun p => (marketRankedWithCode p.1 "1" "OTC",
                 marketRankedWithCode p.1 "2" "OTC")) = Except.ok (true, false)) ∧
    aifmMarketsLoop (seedArena "AIFMPrincipalMarkets") 0
        (aifmMarketRows c8RowsSwapped) 0
      ≠ aifmMarketsLoop (seedArena "AIFMPrincipalMarkets") 0
        (aifmMarketRows c8Rows) 0 := by
  constructor
  · rfl
  · decide

/-- C9: counterexample — two runs of the OFK builder on the same field
table at different times (here: one month apart) produce trees that differ
even after excluding the creation-timestamp attribute, because the
generation month is also embedded in the `xsi:schemaLocation` attribute
and in the `rappOpmerkingen` element text. -/
theorem C9_counterexample :
    (ofkBuildDoc "2020-" 4 [sheetBT]).map stripCreation
      ≠ (ofkBuildDoc "2020-" 5 [sheetBT]).map stripCreation := by
  decide

end OFK

namespace OFK

/-! ## Helper lemmas for the idempotence claim -/

theorem filter_dictSet {α : Type} (key k : String) (v : α) (d : List (String × α)) :
    (dictSet d k v).filter (fun p => p.1 != key) =
    if k == key then d.filter (fun p => p.1 != key)
    else dictSet (d.filter (fun p => p.1 != key)) k v := by
  induction d with
  | nil => cases hk : k == key <;> simp [dictSet, List.filter, bne, hk]
  | cons p rest ih =>
      simp only [bne] at ih ⊢
      cases hpk : p.1 == k <;> cases hk : k == key <;>
        cases hpkey : p.1 == key <;>
        simp_all [dictSet, List.filter_cons]

theorem stripCA_aifmRootAttrs (ts tt : String) (h0 h1 : String × Value) :
    (aifmRootAttrs ts h0 h1).filter (fun p => p.1 != "CreationDateAndTime") =
    (aifmRootAttrs tt h0 h1).filter (fun p => p.1 != "CreationDateAndTime") := by
  simp [aifmRootAttrs, filter_dictSet]

theorem stripCA_aifRootAttrs (t1 t2 : String) (h0 h1 : String × Value) :
    (aifRootAttrs t1 h0 h1).filter (fun p => p.1 != "CreationDateAndTime") =
    (aifRootAttrs t2 h0 h1).filter (fun p => p.1 != "CreationDateAndTime") := by
  simp [aifRootAttrs, filter_dictSet]

theorem foldl_addLeaf (ctn : Nat) (row : List (String × Value)) :
    ∀ a : Arena, row.foldl (fun a p => addLeaf a ctn p.1 (strStrip p.2)) a
      = a ++ row.map (fun p => ⟨p.1, ctn, some (strStrip p.2)⟩) := by
  induction row with
  | nil => intro a; simp
  | cons p rest ih =>
      intro a
      rw [List.foldl_cons, ih]
      simp [addLeaf, List.append_assoc]

/-- Two builder runs from arenas of equal length append the same suffix,
or fail with the same error. -/
def ExtRel (a b : Arena) : Exc Arena → Exc Arena → Prop
  | .ok xa, .ok yb => ∃ t, xa = a ++ t ∧ yb = b ++ t
  | .error e1, .error e2 => e1 = e2
  | _, _ => False

theorem ExtRel.compose {a b : Arena} {s : List ANode} {x y : Exc Arena}
    (h : ExtRel (a ++ s) (b ++ s) x y) : ExtRel a b x y := by
  cases x <;> cases y <;> simp [ExtRel] at h ⊢
  · exact h
  · obtain ⟨t, hx, hy⟩ := h
    exact ⟨s ++ t, by simp [hx, List.append_assoc], by simp [hy, List.append_assoc]⟩

theorem ExtRel.bindE {a b : Arena} {x y : Exc Arena}
    (hxy : ExtRel a b x y) (f g : Arena → Exc Arena)
    (hfg : ∀ s, ExtRel (a ++ s) (b ++ s) (f (a ++ s)) (g (b ++ s))) :
    ExtRel a b (x.bind f) (y.bind g) := by
  cases x with
  | error e1 =>
      cases y with
      | error e2 => simpa [ExtRel, Except.bind] using hxy
      | ok yb => simp [ExtRel] at hxy
  | ok xa =>
      cases y with
      | error e2 => simp [ExtRel] at hxy
      | ok yb =>
          obtain ⟨t, hx, hy⟩ := hxy
          subst hx; subst hy
          exact ExtRel.compose (by simpa [Except.bind] using hfg t)

theorem ofkFillSubform_ext (sheet : String) (rows : List (List (String × Value))) :
    ∀ (a b : Arena) (sub : Nat), a.length = b.length →
      ExtRel a b (ofkFillSubform a sub sheet rows) (ofkFillSubform b sub sheet rows) := by
  induction rows with
  | nil => intro a b sub h; exact ⟨[], by simp, by simp⟩
  | cons row rest ih =>
      intro a b sub h
      simp only [ofkFillSubform, bind, Except.bind]
      cases hct : dget subformRegeltag sheet with
      | error e => simp [ExtRel]
      | ok ct =>
          simp only [subElem, foldl_addLeaf, ← h]
          have hlen : (a ++ ⟨ct, sub, none⟩ ::
              row.map (fun p => (⟨p.1, a.length, some (strStrip p.2)⟩ : ANode))).length
            = (b ++ ⟨ct, sub, none⟩ ::
              row.map (fun p => (⟨p.1, a.length, some (strStrip p.2)⟩ : ANode))).length := by
            simp [h]
          have hrec := ih _ _ sub hlen
          simp only [List.cons_append, List.append_assoc] at hrec ⊢
          exact ExtRel.compose (by simpa using hrec)

theorem ofkBuildForms_ext (sheets : List OFKSheet) :
    ∀ (a b : Arena) (e : List String) (l : Option Nat), a.length = b.length →
      ExtRel a b (ofkBuildForms a e l sheets) (ofkBuildForms b e l sheets) := by
  induction sheets with
  | nil => intro a b e l h; exact ⟨[], by simp, by simp⟩
  | cons s rest ih =>
      intro a b e l h
      by_cases hex : s.formName ∈ e
      · cases l with
        | none => simp [ofkBuildForms, hex, ExtRel, throwErr]
        | some f =>
            have hgoal : ofkBuildForms a e (some f) (s :: rest)
                = (ofkFillSubform (a ++ [⟨s.sheet, f, none⟩]) a.length s.sheet
                    s.rows).bind (fun ar => ofkBuildForms ar e (some f) rest) := by
              simp [ofkBuildForms, hex, subElem, Bind.bind]
            have hgoalb : ofkBuildForms b e (some f) (s :: rest)
                = (ofkFillSubform (b ++ [⟨s.sheet, f, none⟩]) b.length s.sheet
                    s.rows).bind (fun ar => ofkBuildForms ar e (some f) rest) := by
              simp [ofkBuildForms, hex, subElem, Bind.bind]
            rw [hgoal, hgoalb, ← h]
            refine ExtRel.compose (s := [⟨s.sheet, f, none⟩]) ?_
            refine ExtRel.bindE ?_ _ _ ?_
            · exact ofkFillSubform_ext s.sheet s.rows _ _ a.length (by simp [h])
            · intro t
              exact ih _ _ e (some f) (by simp [h])
      · have hgoal : ofkBuildForms a e l (s :: rest)
            = (ofkFillSubform (a ++ [⟨s.formName, 0, none⟩, ⟨s.sheet, a.length, none⟩])
                (a.length + 1) s.sheet s.rows).bind
              (fun ar => ofkBuildForms ar (e ++ [s.formName]) (some a.length) rest) := by
          simp [ofkBuildForms, hex, subElem, Bind.bind, List.append_assoc]
        have hgoalb : ofkBuildForms b e l (s :: rest)
            = (ofkFillSubform (b ++ [⟨s.formName, 0, none⟩, ⟨s.sheet, b.length, none⟩])
                (b.length + 1) s.sheet s.rows).bind
              (fun ar => ofkBuildForms ar (e ++ [s.formName]) (some b.length) rest) := by
          simp [ofkBuildForms, hex, subElem, Bind.bind, List.append_assoc]
        rw [hgoal, hgoalb, ← h]
        refine ExtRel.compose (s := [⟨s.formName, 0, none⟩, ⟨s.sheet, a.length, none⟩]) ?_
        refine ExtRel.bindE ?_ _ _ ?_
        · exact ofkFillSubform_ext s.sheet s.rows _ _ (a.length + 1) (by simp [h])
        · intro t
          exact ih _ _ (e ++ [s.formName]) (some a.length) (by simp [h])

/-- C9 (amended): each per-file builder is deterministic, and two runs at
different times agree once every time-derived part of the output is
excluded — the `CreationDateAndTime` root attribute in the AIF and AIFM
generators, and in the OFK generator the month-derived
`xsi:schemaLocation` attribute together with the `rappOpmerkingen`
element text. -/
theorem C9_amended :
    (∀ t1 t2 df, (aifBuildFile t1 df).map stripCreation
        = (aifBuildFile t2 df).map stripCreation) ∧
    (∀ t1 t2 df, (aifmBuildFile t1 df).map stripCreation
        = (aifmBuildFile t2 df).map stripCreation) ∧
    (∀ y1 m1 y2 m2 sheets, (ofkBuildDoc y1 m1 sheets).map stripOFKDate
        = (ofkBuildDoc y2 m2 sheets).map stripOFKDate) := by
  refine ⟨?_, ?_, ?_⟩
  · intro t1 t2 df
    simp only [aifBuildFile, bind, Except.bind]
    cases pyGet (headerFileKeysOfA df) 0 with
    | error e => rfl
    | ok h0 =>
      cases pyGet (headerFileKeysOfA df) 1 with
      | error e => rfl
      | ok h1 =>
        by_cases hc : (h0.2.pyTruthy && h1.2.eqStr "") = true
        · simp [hc]
        · simp only [Bool.not_eq_true] at hc
          simp only [hc, Bool.false_eq_true, if_false]
          cases aifBody df with
          | error e => rfl
          | ok a =>
              simp only [Except.map, stripCreation]
              rw [stripCA_aifRootAttrs t1 t2 h0 h1]
  · intro t1 t2 df
    simp only [aifmBuildFile, bind, Except.bind]
    cases pyGet (headerFileKeysOfM df) 0 with
    | error e => rfl
    | ok h0 =>
      cases pyGet (headerFileKeysOfM df) 1 with
      | error e => rfl
      | ok h1 =>
        by_cases hc : (h0.2.pyTruthy && h1.2.eqStr "") = true
        · simp [hc]
        · simp only [Bool.not_eq_true] at hc
          simp only [hc, Bool.false_eq_true, if_false]
          cases aifmBody df with
          | error e => rfl
          | ok a =>
              simp only [Except.map, stripCreation]
              rw [stripCA_aifmRootAttrs t1 t2 h0 h1]
  · intro y1 m1 y2 m2 sheets
    have hinit : (addLeaf [⟨"OFK-K", 0, none⟩] 0 "rappOpmerkingen"
          ("OFK " ++ ofkDateStr y1 m1)).length
        = (addLeaf [⟨"OFK-K", 0, none⟩] 0 "rappOpmerkingen"
          ("OFK " ++ ofkDateStr y2 m2)).length := by
      simp [addLeaf]
    have hext := ofkBuildForms_ext sheets _ _ [] none hinit
    simp only [ofkBuildDoc, bind, Except.bind]
    cases hA : ofkBuildForms (addLeaf [⟨"OFK-K", 0, none⟩] 0 "rappOpmerkingen"
        ("OFK " ++ ofkDateStr y1 m1)) [] none sheets with
    | error e1 =>
        cases hB : ofkBuildForms (addLeaf [⟨"OFK-K", 0, none⟩] 0 "rappOpmerkingen"
            ("OFK " ++ ofkDateStr y2 m2)) [] none sheets with
        | error e2 =>
            rw [hA, hB] at hext
            simp only [ExtRel] at hext
            subst hext
            rfl
        | ok b2 => rw [hA, hB] at hext; simp [ExtRel] at hext
    | ok a1 =>
        cases hB : ofkBuildForms (addLeaf [⟨"OFK-K", 0, none⟩] 0 "rappOpmerkingen"
            ("OFK " ++ ofkDateStr y2 m2)) [] none sheets with
        | error e2 => rw [hA, hB] at hext; simp [ExtRel] at hext
        | ok b2 =>
            rw [hA, hB] at hext
            obtain ⟨t, h1t, h2t⟩ := hext
            subst h1t; subst h2t
            have e1 : (("OFK-K" : String) == "rappOpmerkingen") = false := rfl
            have e2 : (("rappOpmerkingen" : String) == "rappOpmerkingen") = true := rfl
            simp [Except.map, stripOFKDate, addLeaf, List.map_append, e1, e2,
              ofkRootAttrs, dictSet, filter_dictSet, List.filter]

end OFK

namespace OFK

theorem mem_dictSet_self {α : Type} (d : List (String × α)) (k : String) (v : α) :
    (k, v) ∈ dictSet d k v := by
  induction d with
  | nil => simp [dictSet]
  | cons p rest ih => by_cases hp : p.1 == k <;> simp [dictSet, hp, ih]

theorem mem_dictSet_of_ne {α : Type} {d : List (String × α)} {k : String} {v : α}
    (k2 : String) (v2 : α) (hne : k ≠ k2) (hm : (k, v) ∈ d) :
    (k, v) ∈ dictSet d k2 v2 := by
  induction d with
  | nil => cases hm
  | cons p rest ih =>
      rcases List.mem_cons.mp hm with h1 | h1
      · have hp : p.1 ≠ k2 := by
          rw [← h1]
          exact hne
        have hpb : (p.1 == k2) = false := by
          simpa using hp
        simp [dictSet, hpb, h1]
      · by_cases hp : p.1 == k2
        · simp [dictSet, hp]
          right
          exact h1
        · simp [dictSet, hp]
          right
          exact ih h1

/-- The two header-file rows (rows 1-3): `hdrTagged t0 v0 t1 v1` states
that the extracted header pairs start with `(t0, v0)` and `(t1, v1)`. -/
def hdrBadM : List RowM :=
  [mkRowM "A" (.vstr "1") (.vstr "x"), mkRowM "B" (.vstr "2") (.vstr "")]

def hdrBadA : List RowA :=
  [mkRowA "A" (.vstr "1") (.vstr "x"), mkRowA "B" (.vstr "2") (.vstr "")]

/-- C10: in both the AIF and AIFM converters the rows-1-3 emptiness check
fires exactly when the first header value is non-empty and the second is
the empty string; whenever that conjunction fails (in particular whenever
the first value is empty, both-empty included) no error is raised and the
build proceeds to set both header values as root attributes, which indeed
appear in the root attribute set. -/
theorem C10_confirmed (ts t0 t1 v0 v1 : String) (rest : List (String × Value))
    (dfm : List RowM) (dfa : List RowA)
    (hm : headerFileKeysOfM dfm = (t0, .vstr v0) :: (t1, .vstr v1) :: rest)
    (ha : headerFileKeysOfA dfa = (t0, .vstr v0) :: (t1, .vstr v1) :: rest) :
    (v0 ≠ "" → v1 = "" →
      aifmBuildFile ts dfm = Except.error ⟨.emptyValue,
        " " ++ t0 ++ " and " ++ t1 ++ " fields cannot be empty! "⟩ ∧
      aifBuildFile ts dfa = Except.error ⟨.emptyValue,
        t0 ++ " and " ++ t1 ++ " fields cannot be empty!"⟩) ∧
    (¬(v0 ≠ "" ∧ v1 = "") →
      aifmBuildFile ts dfm = (aifmBody dfm).map
        (fun a => ⟨aifmRootAttrs ts (t0, .vstr v0) (t1, .vstr v1), a⟩) ∧
      aifBuildFile ts dfa = (aifBody dfa).map
        (fun a => ⟨aifRootAttrs ts (t0, .vstr v0) (t1, .vstr v1), a⟩)) ∧
    (t0 ≠ t1 → t0 ≠ "xmlns:xsi" → t1 ≠ "xmlns:xsi" →
      (t0, pyStrip v0) ∈ aifmRootAttrs ts (t0, .vstr v0) (t1, .vstr v1) ∧
      (t1, pyStrip v1) ∈ aifmRootAttrs ts (t0, .vstr v0) (t1, .vstr v1)) := by
  refine ⟨?_, ?_, ?_⟩
  · intro hv0 hv1
    subst hv1
    constructor
    · simp [aifmBuildFile, hm, pyGet, bind, Except.bind, Value.pyTruthy,
        Value.eqStr, hv0, throwErr]
    · simp [aifBuildFile, ha, pyGet, bind, Except.bind, Value.pyTruthy,
        Value.eqStr, hv0, throwErr]
  · intro hcond
    have hb : (Value.pyTruthy (.vstr v0) && Value.eqStr (.vstr v1) "") = false := by
      by_cases h0 : v0 = ""
      · simp [Value.pyTruthy, h0]
      · have h1 : v1 ≠ "" := fun hv1 => hcond ⟨h0, hv1⟩
        simp [Value.pyTruthy, Value.eqStr, h0, h1]
    constructor
    · simp only [aifmBuildFile, hm, pyGet, List.get?, bind, Except.bind, hb,
        Bool.false_eq_true, if_false]
      cases aifmBody dfm <;> simp [Except.map]
    · simp only [aifBuildFile, ha, pyGet, List.get?, bind, Except.bind, hb,
        Bool.false_eq_true, if_false]
      cases aifBody dfa <;> simp [Except.map]
  · intro h01 h0x h1x
    constructor
    · exact mem_dictSet_of_ne "xmlns:xsi" _ h0x
        (mem_dictSet_of_ne t1 _ h01 (mem_dictSet_self _ t0 (pyStrip v0)))
    · exact mem_dictSet_of_ne "xmlns:xsi" _ h1x
        (mem_dictSet_self _ t1 (pyStrip v1))

/-- C10 witness: a concrete input with a non-empty first and empty second
header value raises the empty-value error in both converters. -/
theorem C10_confirmed_witness :
    aifmBuildFile "T" hdrBadM
      = Except.error ⟨.emptyValue, " A and B fields cannot be empty! "⟩ ∧
    aifBuildFile "T" hdrBadA
      = Except.error ⟨.emptyValue, "A and B fields cannot be empty!"⟩ :=
  (C10_confirmed "T" "A" "B" "x" "" [] hdrBadM hdrBadA rfl rfl).1
    (by decide) rfl

end OFK

namespace OFK

theorem eqStr_true_iff (v : Value) (s : String) :
    Value.eqStr v s = true ↔ v = .vstr s := by
  cases v <;> simp [Value.eqStr]

theorem pyGet_ranks {c : Nat} (hc : c < 5) :
    pyGet [1, 2, 3, 4, 5] c = Except.ok (c + 1) := by
  interval_cases c <;> rfl

theorem pyGet_error_spec {α : Type} {l : List α} {i : Nat} {e : Err}
    (h : pyGet l i = Except.error e) :
    e = ⟨.pyIndexError, "list index out of range"⟩ := by
  unfold pyGet at h
  cases hl : l.get? i <;> rw [hl] at h <;> simp [throwErr] at h
  exact h.symm

theorem pyLen_error_spec {v : Value} {e : Err}
    (h : pyLen v = Except.error e) :
    e = ⟨.pyAttributeError, "object has no len"⟩ := by
  cases v <;> simp [pyLen, throwErr] at h <;> exact h.symm

/-- C7: in the AIFM principal-market loop, a market-code-type value
outside the set MIC, XXX, OTC, NOT makes the row processing fail with the
DomainValueError, an in-set value never produces a domain-value error,
and an in-set value (with the row otherwise valid) is accepted and
emitted as a MarketCodeType node. -/
theorem C7_confirmed (a : Arena) (pms : Nat) (desc v1 v2 : Value) (c : Nat) :
    ((["MIC", "XXX", "OTC", "NOT"].any (fun s => desc.eqStr s)) = false →
      aifmMarketStep a pms (desc, v1, v2) c = Except.error ⟨.domainValue,
        "Required principal market values in for AIFM trades are MIC, XXX, OTC & NOT. Check values in rows 32-36, column C of template"⟩) ∧
    ((["MIC", "XXX", "OTC", "NOT"].any (fun s => desc.eqStr s)) = true →
      ∀ e, aifmMarketStep a pms (desc, v1, v2) c = Except.error e →
        e.kind ≠ ErrKind.domainValue) ∧
    ((["MIC", "XXX", "OTC", "NOT"].any (fun s => desc.eqStr s)) = true →
      (desc.eqStr "MIC" = true → ∃ s, v1 = .vstr s ∧ s ≠ "" ∧ s.length ≤ 4) →
      (desc.eqStr "NOT" = true ∨ ∃ n : Int, 0 ≤ n ∧ v2 = .vint n) →
      c < 5 →
      (aifmMarketStep a pms (desc, v1, v2) c).map
          (fun p => (p.2, hasLeaf p.1 "MarketCodeType" (strStrip desc)))
        = Except.ok (c + 1, true)) := by
  refine ⟨?_, ?_, ?_⟩
  · intro hset
    simp [aifmMarketStep, hset, throwErr]
  · intro hset e he
    simp only [aifmMarketStep, hset, if_true, bind, Except.bind, throwErr] at he
    repeat' (split at he)
    all_goals (try (exact Except.noConfusion he))
    all_goals (try (cases he; simp; done))
    all_goals (injection he with h2)
    all_goals (rename_i heq)
    all_goals (rw [h2] at heq)
    all_goals (first | (rw [pyGet_error_spec heq]; simp) | (rw [pyLen_error_spec heq]; simp))
  · intro hset hmic hamt hc
    have hrank : pyGet [1, 2, 3, 4, 5] c = Except.ok (c + 1) := pyGet_ranks hc
    by_cases hm : desc.eqStr "MIC" = true
    · obtain ⟨s, hv1, hs1, hs2⟩ := hmic hm
      subst hv1
      have hdesc : desc = .vstr "MIC" := (eqStr_true_iff desc "MIC").mp hm
      subst hdesc
      have hse : (s == "") = false := by simpa using hs1
      have hlen : ¬ s.length > 4 := by omega
      rcases hamt with hnot | ⟨n, hn, hv2⟩
      · simp [Value.eqStr] at hnot
      · subst hv2
        simp [aifmMarketStep, hset, hrank, Value.eqStr, hse, pyLen, hlen,
          bind, Except.bind, Value.isInt, Value.intVal,
          Int.not_lt.mpr hn, subElem, addLeaf, Except.map, hasLeaf,
          List.any_append]
    · have hmf : desc.eqStr "MIC" = false := by simpa using hm
      by_cases hnotb : desc.eqStr "NOT" = true
      · simp [aifmMarketStep, hset, hrank, hmf, hnotb, bind, Except.bind,
          subElem, addLeaf, Except.map, hasLeaf, List.any_append]
      · have hnf : desc.eqStr "NOT" = false := by simpa using hnotb
        rcases hamt with hnot | ⟨n, hn, hv2⟩
        · simp [hnot] at hnf
        · subst hv2
          simp [aifmMarketStep, hset, hrank, hmf, hnf, bind, Except.bind,
            Value.isInt, Value.intVal, Int.not_lt.mpr hn, subElem, addLeaf,
            Except.map, hasLeaf, List.any_append]

/-- C7 witness: the in-set code `OTC` with a valid amount is accepted and
emitted with rank 1. -/
theorem C7_confirmed_witness :
    (aifmMarketStep (seedArena "AIFMPrincipalMarkets") 0
        (.vstr "OTC", .vstr "", .vint 3) 0).map
      (fun p => (p.2, hasLeaf p.1 "MarketCodeType" (strStrip (.vstr "OTC"))))
      = Except.ok (1, true) :=
  (C7_confirmed (seedArena "AIFMPrincipalMarkets") 0 (.vstr "OTC") (.vstr "")
      (.vint 3) 0).2.2 (by decide)
    (by intro h; exact absurd h (by decide))
    (Or.inr ⟨3, by decide, rfl⟩) (by decide)

end OFK

namespace OFK

theorem pyGet_ranks_ok {c r : Nat} (h : pyGet [1, 2, 3, 4, 5] c = Except.ok r) :
    r = c + 1 := by
  unfold pyGet at h
  cases hl : List.get? [1, 2, 3, 4, 5] c with
  | none => rw [hl] at h; simp [throwErr] at h
  | some x =>
      rw [hl] at h
      simp at h
      subst h
      have hc : c < 5 := by
        have := List.get?_eq_some.mp hl
        simpa using this.1
      interval_cases c <;> simp_all

/-- C8 (amended): the Ranking of an AIFM principal market is assigned
positionally — the loop hands each row the running counter and the row, on
success, receives Ranking counter+1 and passes counter+1 on, regardless of
the row identifiers, which are only used to select the rows. -/
theorem C8_amended :
    (∀ (a : Arena) (pms : Nat) (row : Value × Value × Value)
        (rest : List (Value × Value × Value)) (c : Nat),
      aifmMarketsLoop a pms (row :: rest) c
        = (aifmMarketStep a pms row c).bind
            (fun p => aifmMarketsLoop p.1 pms rest p.2)) ∧
    (∀ (a : Arena) (pms : Nat) (row : Value × Value × Value) (c : Nat)
        (a2 : Arena) (c2 : Nat),
      aifmMarketStep a pms row c = Except.ok (a2, c2) →
      c2 = c + 1 ∧ hasLeaf a2 "Ranking" (pyStrip (toString (c + 1))) = true) := by
  constructor
  · intro a pms row rest c
    simp only [aifmMarketsLoop, bind, Except.bind]
  · intro a pms row c a2 c2 h
    obtain ⟨desc, v1, v2⟩ := row
    by_cases hset : (["MIC", "XXX", "OTC", "NOT"].any fun s => desc.eqStr s) = true
    · simp only [aifmMarketStep, hset, if_true, bind, Except.bind, throwErr] at h
      repeat' (split at h)
      all_goals (try (exact Except.noConfusion h))
      all_goals (injection h with h2)
      all_goals (cases h2)
      all_goals (refine ⟨rfl, ?_⟩)
      all_goals (have hr := pyGet_ranks_ok (by assumption))
      all_goals (rw [← hr])
      all_goals (simp [hasLeaf, addLeaf, subElem, List.any_append])
    · simp only [aifmMarketStep, hset, Bool.false_eq_true, if_false,
        throwErr] at h
      exact Except.noConfusion h

/-- C8 amended witness: the first processed row gets Ranking 1. -/
theorem C8_amended_witness :
    (1 : Nat) = 0 + 1 ∧
    hasLeaf
      [⟨"AIFMPrincipalMarkets", 0, none⟩, ⟨"AIFMFivePrincipalMarket", 0, none⟩,
       ⟨"Ranking", 1, some "1"⟩, ⟨"MarketIdentification", 1, none⟩,
       ⟨"MarketCodeType", 3, some "XXX"⟩, ⟨"AggregatedValueAmount", 1, some "1"⟩]
      "Ranking" (pyStrip (toString (0 + 1))) = true :=
  C8_amended.2 (seedArena "AIFMPrincipalMarkets") 0
    (.vstr "XXX", .vstr "", .vint 1) 0
    [⟨"AIFMPrincipalMarkets", 0, none⟩, ⟨"AIFMFivePrincipalMarket", 0, none⟩,
     ⟨"Ranking", 1, some "1"⟩, ⟨"MarketIdentification", 1, none⟩,
     ⟨"MarketCodeType", 3, some "XXX"⟩, ⟨"AggregatedValueAmount", 1, some "1"⟩]
    1 (by decide)

end OFK

namespace OFK

theorem aifmRunGo_aborts (ts bn : String) (bd : List RowM)
    (post : List (String × List RowM)) (e : Err)
    (hbad : aifmBuildFile ts bd = Except.error e) :
    ∀ (pre : List (String × List RowM)) (acc : List (String × XDoc)),
      (∀ f ∈ pre, (aifmBuildFile ts f.2).isOk = true) →
      (aifmRunGo ts (pre ++ (bn, bd) :: post) acc).written.length
          = acc.length + pre.length ∧
      (aifmRunGo ts (pre ++ (bn, bd) :: post) acc).logged = some e := by
  intro pre
  induction pre with
  | nil =>
      intro acc _
      simp [aifmRunGo, hbad]
  | cons f rest ih =>
      intro acc hall
      obtain ⟨n, df⟩ := f
      have hf : (aifmBuildFile ts df).isOk = true := hall (n, df) (by simp)
      obtain ⟨doc, hdoc⟩ : ∃ doc, aifmBuildFile ts df = Except.ok doc := by
        cases hfe : aifmBuildFile ts df with
        | error e2 => rw [hfe] at hf; simp [Except.isOk, Except.toBool] at hf
        | ok doc => exact ⟨doc, rfl⟩
      have hrec := ih ((n, doc) :: acc)
        (fun g hg => hall g (List.mem_cons_of_mem _ hg))
      simp only [List.cons_append, aifmRunGo, hdoc, List.append_eq] at hrec ⊢
      refine ⟨?_, hrec.2⟩
      rw [hrec.1]
      simp [List.length_cons]
      omega

theorem aifRunGo_aborts (t bn : String) (bd : List RowA)
    (post : List (String × List RowA)) (e : Err)
    (hbad : aifBuildFile t bd = Except.error e) :
    ∀ (pre : List (String × List RowA)) (last : Option (String × XDoc)),
      (∀ f ∈ pre, (aifBuildFile t f.2).isOk = true) →
      aifRunGo t (pre ++ (bn, bd) :: post) last = ⟨[], some e⟩ := by
  intro pre
  induction pre with
  | nil =>
      intro last _
      simp [aifRunGo, hbad]
  | cons f rest ih =>
      intro last hall
      obtain ⟨n, df⟩ := f
      have hf : (aifBuildFile t df).isOk = true := hall (n, df) (by simp)
      obtain ⟨doc, hdoc⟩ : ∃ doc, aifBuildFile t df = Except.ok doc := by
        cases hfe : aifBuildFile t df with
        | error e2 => rw [hfe] at hf; simp [Except.isOk, Except.toBool] at hf
        | ok doc => exact ⟨doc, rfl⟩
      simp only [List.cons_append, aifRunGo, hdoc, List.append_eq]
      exact ih (some (n, doc)) (fun g hg => hall g (List.mem_cons_of_mem _ hg))

/-- C2 (amended): in the AIF and AIFM converters the whole batch loop sits
inside one try-block, so the first error is caught at the batch boundary:
it is logged once and every later file goes unprocessed (in AIF even the
earlier successes are lost, since the single write comes after the loop);
per-file isolation holds only in the OFK generator, whose try-block sits
inside the loop and which continues with the remaining files after logging
a catchable validation error. -/
theorem C2_amended :
    (∀ (ts bn : String) (bd : List RowM) (pre post : List (String × List RowM)) (e : Err),
      (∀ f ∈ pre, (aifmBuildFile ts f.2).isOk = true) →
      aifmBuildFile ts bd = Except.error e →
      (aifmRun ts (pre ++ (bn, bd) :: post)).written.length = pre.length ∧
      (aifmRun ts (pre ++ (bn, bd) :: post)).logged = some e) ∧
    (∀ (t bn : String) (bd : List RowA) (pre post : List (String × List RowA)) (e : Err),
      (∀ f ∈ pre, (aifBuildFile t f.2).isOk = true) →
      aifBuildFile t bd = Except.error e →
      aifRun t (pre ++ (bn, bd) :: post) = ⟨[], some e⟩) ∧
    (∀ (y : String) (m : Int) (n : String) (shts : List OFKSheet)
        (rest : List (String × List OFKSheet)) (e : Err),
      ofkValidate (ofkCTV shts) shts = Except.error e →
      ofkCatchable e.kind = true →
      ofkRun y m ((n, shts) :: rest)
        = ⟨(ofkRun y m rest).written, e :: (ofkRun y m rest).logs,
           (ofkRun y m rest).crashed⟩) := by
  refine ⟨?_, ?_, ?_⟩
  · intro ts bn bd pre post e hall hbad
    have hne : ((pre ++ (bn, bd) :: post).length == 0) = false := by
      simp
    have := aifmRunGo_aborts ts bn bd post e hbad pre [] hall
    simpa [aifmRun, hne] using this
  · intro t bn bd pre post e hall hbad
    have hne : ((pre ++ (bn, bd) :: post).length == 0) = false := by
      simp
    have := aifRunGo_aborts t bn bd post e hbad pre none hall
    simpa [aifRun, hne] using this
  · intro y m n shts rest e herr hcatch
    simp [ofkRun, herr, hcatch]

/-- C2 amended witness: a concrete AIFM batch of good, bad, good files
logs the bad file's error once and has written only the one file that
preceded it. -/
theorem C2_amended_witness :
    (aifmRun "T" ([("g1", goodM)] ++ ("bad", badM) :: [("g2", goodM)])).written.length
      = 1 ∧
    (aifmRun "T" ([("g1", goodM)] ++ ("bad", badM) :: [("g2", goodM)])).logged
      = some ⟨.emptyValue, "LastReportingFlag field cannot be empty!"⟩ := by
  have h := C2_amended.1 "T" "bad" badM [("g1", goodM)] [("g2", goodM)]
      ⟨.emptyValue, "LastReportingFlag field cannot be empty!"⟩
      (by intro f hf; rw [List.mem_singleton] at hf; subst hf; rfl) rfl
  simpa using h

end OFK

namespace OFK

theorem dget_vdictM_aumE (aumE aumB bc rt rate od : Value) :
    dget (aifmValuesDict aumE aumB bc rt rate od) "AUMAmountInEuro"
      = Except.ok aumE := rfl

theorem dget_vdictM_aumB (aumE aumB bc rt rate od : Value) :
    dget (aifmValuesDict aumE aumB bc rt rate od) "AUMAmountInBaseCurrency"
      = Except.ok aumB := rfl

theorem dget_vdictM_bc (aumE aumB bc rt rate od : Value) :
    dget (aifmValuesDict aumE aumB bc rt rate od) "BaseCurrency"
      = Except.ok bc := rfl

theorem dget_vdictM_rt (aumE aumB bc rt rate od : Value) :
    dget (aifmValuesDict aumE aumB bc rt rate od) "FXEURReferenceRateType"
      = Except.ok rt := rfl

theorem dget_vdictM_rate (aumE aumB bc rt rate od : Value) :
    dget (aifmValuesDict aumE aumB bc rt rate od) "FXEURRate"
      = Except.ok rate := rfl

theorem dget_vdictM_od (aumE aumB bc rt rate od : Value) :
    dget (aifmValuesDict aumE aumB bc rt rate od) "FXEUROtherReferenceRateDescription"
      = Except.ok od := rfl

/-- C4 (amended): unsigned-integer-constrained fields reject negative and
non-integral values with the unsigned-integer error once the check is
reached, and nonnegative whole numbers are accepted and emitted — except
that the `AUMAmountInBaseCurrency` block is gated on Python truthiness of
the value AND a non-empty `BaseCurrency`: the whole number 0 (falsy) skips
the block, and a positive value with an empty `BaseCurrency` skips it too,
in both cases neither checked, rejected, nor emitted; a positive whole
number is never rejected with the base-currency unsigned-integer error,
and with a non-empty `BaseCurrency` it is emitted verbatim whenever the
section succeeds. -/
theorem C4_amended :
    (∀ (a : Arena) (pms : Nat) (desc v1 v2 : Value) (c : Nat),
      (["MIC", "XXX", "OTC", "NOT"].any (fun s => desc.eqStr s)) = true →
      desc.eqStr "NOT" = false →
      (desc.eqStr "MIC" = true → ∃ s, v1 = .vstr s ∧ s ≠ "" ∧ s.length ≤ 4) →
      c < 5 →
      ((v2.isInt = false ∨ v2.intVal < 0) →
        aifmMarketStep a pms (desc, v1, v2) c = Except.error ⟨.unsignedInteger,
          "AggregatedValueAmount must be not contain decimals & should not be a negative number. Check value in row 32-36 column D"⟩) ∧
      (∀ n : Int, 0 ≤ n → v2 = .vint n →
        (aifmMarketStep a pms (desc, v1, v2) c).map
            (fun p => hasLeaf p.1 "AggregatedValueAmount" (strStrip (.vint n)))
          = Except.ok true)) ∧
    (∀ (a : Arena) (cd : Nat) (aumE aumB bc rt rate od : Value),
      (aumE.eqStr "" = false → (aumE.isInt = false ∨ aumE.intVal < 0) →
        aifmValuesSec a cd (aifmValuesDict aumE aumB bc rt rate od)
          = Except.error ⟨.unsignedInteger,
            "AUMAmountInEuro must be UnassigneIinteger (not contain decimals and not negative). Check value in row 46 column D"⟩) ∧
      (∀ n : Int, 0 ≤ n → aumE = .vint n →
        ∀ a2, aifmValuesSec a cd (aifmValuesDict aumE aumB bc rt rate od)
            = Except.ok a2 →
          hasLeaf a2 "AUMAmountInEuro" (strStrip (.vint n)) = true) ∧
      (∀ nE : Int, 0 ≤ nE → aumE = .vint nE →
        aumB.pyTruthy = true → bc.eqStr "" = false →
        (aumB.isInt = false ∨ aumB.intVal < 0) →
        aifmValuesSec a cd (aifmValuesDict aumE aumB bc rt rate od)
          = Except.error ⟨.unsignedInteger,
            "AUMAmountInBaseCurrency must be UnassigneIinteger (not contain decimals & not negative). Check value in row 47 column D"⟩) ∧
      (∀ nE : Int, 0 ≤ nE → aumE = .vint nE → aumB = .vint 0 →
        aifmValuesSec a cd (aifmValuesDict aumE aumB bc rt rate od)
          = Except.ok (addLeaf a cd "AUMAmountInEuro" (strStrip (.vint nE))
              ++ [⟨"AIFMBaseCurrencyDescription", cd, none⟩])) ∧
      (∀ nB : Int, 0 < nB → aumB = .vint nB →
        aifmValuesSec a cd (aifmValuesDict aumE aumB bc rt rate od)
          ≠ Except.error ⟨.unsignedInteger,
            "AUMAmountInBaseCurrency must be UnassigneIinteger (not contain decimals & not negative). Check value in row 47 column D"⟩) ∧
      (∀ nB : Int, 0 < nB → aumB = .vint nB → bc.eqStr "" = false →
        ∀ a2, aifmValuesSec a cd (aifmValuesDict aumE aumB bc rt rate od)
            = Except.ok a2 →
          hasLeaf a2 "AUMAmountInBaseCurrency" (strStrip (.vint nB)) = true) ∧
      (∀ nE nB : Int, 0 ≤ nE → 0 < nB → aumE = .vint nE → aumB = .vint nB →
        bc = .vstr "" →
        aifmValuesSec a cd (aifmValuesDict aumE aumB bc rt rate od)
          = Except.ok (addLeaf a cd "AUMAmountInEuro" (strStrip (.vint nE))
              ++ [⟨"AIFMBaseCurrencyDescription", cd, none⟩]))) := by
  constructor
  · intro a pms desc v1 v2 c hset hnot hmic hc
    have hrank : pyGet [1, 2, 3, 4, 5] c = Except.ok (c + 1) := pyGet_ranks hc
    constructor
    · intro huint
      have hb : (!v2.isInt || decide (v2.intVal < 0)) = true := by
        rcases huint with h | h
        · simp [h]
        · simp [h]
      by_cases hm : desc.eqStr "MIC" = true
      · obtain ⟨s, hv1, hs1, hs2⟩ := hmic hm
        subst hv1
        have hdesc := (eqStr_true_iff desc "MIC").mp hm
        subst hdesc
        have hse : (s == "") = false := by simpa using hs1
        have hlen : ¬ s.length > 4 := by omega
        simp [aifmMarketStep, hrank, hse, pyLen, hlen,
          bind, Except.bind, hb, throwErr, Value.eqStr]
      · have hmf : desc.eqStr "MIC" = false := by simpa using hm
        simp [aifmMarketStep, hset, hrank, hmf, hnot, bind, Except.bind,
          hb, throwErr]
    · intro n hn hv2
      subst hv2
      by_cases hm : desc.eqStr "MIC" = true
      · obtain ⟨s, hv1, hs1, hs2⟩ := hmic hm
        subst hv1
        have hdesc := (eqStr_true_iff desc "MIC").mp hm
        subst hdesc
        have hse : (s == "") = false := by simpa using hs1
        have hlen : ¬ s.length > 4 := by omega
        simp [aifmMarketStep, hrank, hse, pyLen, hlen,
          bind, Except.bind, Value.isInt, Value.intVal, Int.not_lt.mpr hn,
          subElem, addLeaf, Except.map, hasLeaf, List.any_append,
          Value.eqStr]
      · have hmf : desc.eqStr "MIC" = false := by simpa using hm
        simp [aifmMarketStep, hset, hrank, hmf, hnot, bind, Except.bind,
          Value.isInt, Value.intVal, Int.not_lt.mpr hn, subElem, addLeaf,
          Except.map, hasLeaf, List.any_append]
  · intro a cd aumE aumB bc rt rate od
    refine ⟨?_, ?_, ?_, ?_, ?_, ?_, ?_⟩
    · intro hne huint
      have hb : (!aumE.isInt || decide (aumE.intVal < 0)) = true := by
        rcases huint with h | h
        · simp [h]
        · simp [h]
      simp [aifmValuesSec, dget_vdictM_aumE, hne, hb, bind, Except.bind,
        throwErr]
    · intro n hn hv a2 hok
      subst hv
      have he1 : Value.eqStr (.vint n) "" = false := rfl
      have hi1 : Value.isInt (.vint n) = true := rfl
      have hv1 : Value.intVal (.vint n) = n := rfl
      have hlt : (n < 0) = False := eq_false (Int.not_lt.mpr hn)
      simp [aifmValuesSec, dget_vdictM_aumE, dget_vdictM_aumB,
        dget_vdictM_bc, dget_vdictM_rt, dget_vdictM_rate, dget_vdictM_od,
        bind, Except.bind, throwErr, he1, hi1, hv1, hlt] at hok
      repeat' (split at hok)
      all_goals (try (exact Except.noConfusion hok))
      all_goals (injection hok with h2)
      all_goals (subst h2)
      all_goals (simp [hasLeaf, addLeaf, subElem, List.any_append])
    · intro nE hnE hvE htr hbc huint
      subst hvE
      have he1 : Value.eqStr (.vint nE) "" = false := rfl
      have hi1 : Value.isInt (.vint nE) = true := rfl
      have hv1 : Value.intVal (.vint nE) = nE := rfl
      have hlt : (nE < 0) = False := eq_false (Int.not_lt.mpr hnE)
      simp [aifmValuesSec, dget_vdictM_aumE, dget_vdictM_aumB, dget_vdictM_bc,
        bind, Except.bind, throwErr, he1, hi1, hv1, hlt, htr, hbc, huint]
    · intro nE hnE hvE hvB
      subst hvE; subst hvB
      have he1 : Value.eqStr (.vint nE) "" = false := rfl
      have hi1 : Value.isInt (.vint nE) = true := rfl
      have hv1 : Value.intVal (.vint nE) = nE := rfl
      have hlt : (nE < 0) = False := eq_false (Int.not_lt.mpr hnE)
      have htr0 : Value.pyTruthy (.vint 0) = false := by decide
      simp [aifmValuesSec, dget_vdictM_aumE, dget_vdictM_aumB,
        bind, Except.bind, he1, hi1, hv1, hlt, htr0, subElem, addLeaf]
    · intro nB hnB hvB he
      subst hvB
      have hi1 : Value.isInt (.vint nB) = true := rfl
      have hv1 : Value.intVal (.vint nB) = nB := rfl
      have hlt : (nB < 0) = False := eq_false (by omega)
      have htr : Value.pyTruthy (.vint nB) = true := by
        simp [Value.pyTruthy]; omega
      simp [aifmValuesSec, dget_vdictM_aumE, dget_vdictM_aumB,
        dget_vdictM_bc, dget_vdictM_rt, dget_vdictM_rate, dget_vdictM_od,
        bind, Except.bind, throwErr, hi1, hv1, hlt, htr] at he
      repeat' (split at he)
      all_goals (try (exact Except.noConfusion he))
      all_goals (injection he with h2)
      all_goals (exact absurd h2 (by decide))
    · intro nB hnB hvB hbc a2 hok
      subst hvB
      have hi1 : Value.isInt (.vint nB) = true := rfl
      have hv1 : Value.intVal (.vint nB) = nB := rfl
      have hlt : (nB < 0) = False := eq_false (by omega)
      have htr : Value.pyTruthy (.vint nB) = true := by
        simp [Value.pyTruthy]; omega
      simp [aifmValuesSec, dget_vdictM_aumE, dget_vdictM_aumB,
        dget_vdictM_bc, dget_vdictM_rt, dget_vdictM_rate, dget_vdictM_od,
        bind, Except.bind, throwErr, hi1, hv1, hlt, htr, hbc] at hok
      repeat' (split at hok)
      all_goals (try (exact Except.noConfusion hok))
      all_goals (injection hok with h2)
      all_goals (subst h2)
      all_goals (simp [hasLeaf, addLeaf, subElem, List.any_append])
    · intro nE nB hnE hnB hvE hvB hvbc
      subst hvE; subst hvB; subst hvbc
      have he1 : Value.eqStr (.vint nE) "" = false := rfl
      have hi1 : Value.isInt (.vint nE) = true := rfl
      have hv1 : Value.intVal (.vint nE) = nE := rfl
      have hlt : (nE < 0) = False := eq_false (Int.not_lt.mpr hnE)
      have htr : Value.pyTruthy (.vint nB) = true := by
        simp [Value.pyTruthy]; omega
      have hbe : Value.eqStr (.vstr "") "" = true := rfl
      simp [aifmValuesSec, dget_vdictM_aumE, dget_vdictM_aumB, dget_vdictM_bc,
        bind, Except.bind, he1, hi1, hv1, hlt, htr, hbe, subElem, addLeaf]

/-- C4 amended witness: a non-integral `AUMAmountInEuro` value is rejected
with the unsigned-integer error, and a positive whole-number
`AUMAmountInBaseCurrency` (7) with a non-empty `BaseCurrency` (EUR) is
accepted and emitted verbatim in the successfully built section. -/
theorem C4_amended_witness :
    (aifmValuesSec (seedArena "AIFMCompleteDescription") 0
        (aifmValuesDict (.vother "2.5" true) (.vstr "") (.vstr "") (.vstr "")
          (.vstr "") (.vstr ""))
      = Except.error ⟨.unsignedInteger,
          "AUMAmountInEuro must be UnassigneIinteger (not contain decimals and not negative). Check value in row 46 column D"⟩) ∧
    hasLeaf
        [⟨"AIFMCompleteDescription", 0, none⟩,
         ⟨"AUMAmountInEuro", 0, some "5"⟩,
         ⟨"AIFMBaseCurrencyDescription", 0, none⟩,
         ⟨"BaseCurrency", 2, some "EUR"⟩,
         ⟨"AUMAmountInBaseCurrency", 2, some "7"⟩,
         ⟨"FXEUROtherReferenceRateDescription", 2, some ""⟩]
      "AUMAmountInBaseCurrency" (strStrip (.vint 7)) = true :=
  ⟨(C4_amended.2 (seedArena "AIFMCompleteDescription") 0 (.vother "2.5" true)
      (.vstr "") (.vstr "") (.vstr "") (.vstr "") (.vstr "")).1
    (by decide) (Or.inl rfl),
   (C4_amended.2 (seedArena "AIFMCompleteDescription") 0 (.vint 5) (.vint 7)
      (.vstr "EUR") (.vstr "") (.vstr "") (.vstr "")).2.2.2.2.2.1 7
    (by decide) rfl (by decide)
    [⟨"AIFMCompleteDescription", 0, none⟩,
     ⟨"AUMAmountInEuro", 0, some "5"⟩,
     ⟨"AIFMBaseCurrencyDescription", 0, none⟩,
     ⟨"BaseCurrency", 2, some "EUR"⟩,
     ⟨"AUMAmountInBaseCurrency", 2, some "7"⟩,
     ⟨"FXEUROtherReferenceRateDescription", 2, some ""⟩] rfl⟩

end OFK
